import Mathlib

/-!
Verification of the Lunark transaction-preparation engine.

This file is a shallow embedding of the TypeScript sources:
`src/tools/transfer.ts`, `src/tools/approve.ts`, `src/tools/token-utils.ts`
(the swap module), `src/config/dex.ts`, `src/config/tokens.ts` and
`src/config/agent.ts` (networks).

Modelling conventions:
- `chainId` is an `Int` (JS numbers used as dictionary keys).
- `uint256`/`bigint` amounts are `Nat` (all amounts in the engine are
  non-negative).
- Every external collaborator (ethers address validation, RPC reads,
  quoter/router static calls, the relational store, ENS) is a field of an
  `Env` record; `Option` results model both `null` returns and thrown
  exceptions of the underlying call, matching how each call site treats
  them.
- Hex call data built through `ethers.Interface.encodeFunctionData` is
  modelled as a structured `CallData` value carrying exactly the arguments
  the source passes to the encoder; byte-level ABI encoding is outside the
  scope of the claims.
- Socket publication (`getIO().emit`) either succeeds or throws; the flag
  `socketOk` is passed to each handler separately and gates the emitted
  trace only.
-/

/-- Token metadata as returned by the registry lookup `getToken`
(`src/config/tokens.ts`). -/
structure TokenEntry where
  address : String
  decimals : Nat
  name : String
deriving Repr, DecidableEq

/-- A saved address-book contact (`db` contact row: name and wallet
address). -/
structure Contact where
  name : String
  address : String
deriving Repr, DecidableEq

/-- A user row together with their non-deleted contacts, as produced by
`db.user.findUnique({include: {contacts: {where: {deletedAt: null}}}})`. -/
structure UserRec where
  id : String
  contacts : List Contact
deriving Repr, DecidableEq

/-- The external world of the engine: ethers helpers, chain reads, the
relational store and the mutable lookup tables (alias tables and the token
registry are fields so that theorems can quantify over their contents). -/
structure Env where
  isAddress : String → Bool
  aliasTU : String → Option String
  aliasTr : String → Option String
  aliasAp : String → Option String
  getToken : String → Int → Option TokenEntry
  isNative : String → Int → Bool
  wrappedNative : Int → Option String
  nativeSymbol : Int → String
  parseUnits : String → Nat → Option Nat
  parseIntJs : String → Option Int
  nativeBalance : String → Option Nat
  tokenBalance : String → String → Option Nat
  erc20Meta : String → Option (Nat × String)
  v3quote : String → String → String → Nat → Nat → Option Nat
  v2quote : String → String → String → Nat → Option Nat
  allowance : String → String → String → Option Nat
  ensResolve : String → Option String
  dbFindUser : String → Option UserRec
  dbCreateId : Option String
  now : Nat
  fmt : Nat → Nat → String

/-! ### JS string built-ins

`toLowerCase`, `toUpperCase`, `trim`, `endsWith` and the address shape
check are modelled by structural functions over the character list, so
that concrete witnesses evaluate inside the kernel. -/

/-- JS `String.prototype.toLowerCase` (ASCII model). -/
def jsToLower (s : String) : String := ⟨s.data.map Char.toLower⟩

/-- JS `String.prototype.toUpperCase` (ASCII model). -/
def jsToUpper (s : String) : String := ⟨s.data.map Char.toUpper⟩

/-- JS `String.prototype.trim`. -/
def jsTrim (s : String) : String :=
  ⟨((s.data.dropWhile (·.isWhitespace)).reverse.dropWhile (·.isWhitespace)).reverse⟩

/-- JS `String.prototype.endsWith`. -/
def jsEndsWith (s suf : String) : Bool :=
  s.data.reverse.take suf.data.length == suf.data.reverse

/-- JS `String.prototype.startsWith`. -/
def jsStartsWith (s pre : String) : Bool :=
  s.data.take pre.data.length == pre.data

/-! ### Static registries (`src/config`) -/

/-- `TOKEN_ALIASES` of the swap module in `token-utils.ts`. -/
def TOKEN_ALIASES_swap : String → Option String
  | "dollar" => some "USDC"
  | "dolar" => some "USDC"
  | "usd" => some "USDC"
  | "tether" => some "USDT"
  | "bitcoin" => some "WBTC"
  | "btc" => some "WBTC"
  | "ether" => some "ETH"
  | "eth" => some "ETH"
  | "ethereum" => some "ETH"
  | _ => none

/-- `TOKEN_ALIASES` of `transfer.ts`. -/
def TOKEN_ALIASES_transfer : String → Option String
  | "dollar" => some "USDC"
  | "dolar" => some "USDC"
  | "usd" => some "USDC"
  | "$" => some "USDC"
  | "tether" => some "USDT"
  | "ether" => some "ETH"
  | "bitcoin" => some "WBTC"
  | "btc" => some "WBTC"
  | _ => none

/-- `TOKEN_ALIASES` of `approve.ts`. -/
def TOKEN_ALIASES_approve : String → Option String
  | "dollar" => some "USDC"
  | "dolar" => some "USDC"
  | "usd" => some "USDC"
  | "$" => some "USDC"
  | "tether" => some "USDT"
  | "bitcoin" => some "WBTC"
  | "btc" => some "WBTC"
  | _ => none

/-- One entry of the `TOKENS` registry (`src/config/tokens.ts`). -/
structure TokenConfig where
  symbol : String
  name : String
  decimals : Nat
  addresses : Int → Option String

/-- The `TOKENS` registry of `src/config/tokens.ts`, keyed by upper-case
symbol. -/
def TOKENS : String → Option TokenConfig
  | "USDC" => some
    { symbol := "USDC", name := "USD Coin", decimals := 6,
      addresses := fun c =>
        if c = 1 then some "0xA0b86991c6218b36c1d19D4a2e9Eb0cE3606eB48"
        else if c = 137 then some "0x3c499c542cEF5E3811e1192ce70d8cC03d5c3359"
        else if c = 42161 then some "0xaf88d065e77c8cC2239327C5EDb3A432268e5831"
        else if c = 10 then some "0x0b2C639c533813f4Aa9D7837CAf62653d097Ff85"
        else if c = 8453 then some "0x833589fCD6eDb6E08f4c7C32D4f71b54bdA02913"
        else if c = 43114 then some "0xB97EF9Ef8734C71904D8002F8b6Bc66Dd9c48a6E"
        else if c = 56 then some "0x8AC76a51cc950d9822D68b83fE1Ad97B32Cd580d"
        else if c = 11155111 then some "0x1c7D4B196Cb0C7B01d743Fbc6116a902379C7238"
        else none }
  | "USDT" => some
    { symbol := "USDT", name := "Tether USD", decimals := 6,
      addresses := fun c =>
        if c = 1 then some "0xdAC17F958D2ee523a2206206994597C13D831ec7"
        else if c = 137 then some "0xc2132D05D31c914a87C6611C10748AEb04B58e8F"
        else if c = 42161 then some "0xFd086bC7CD5C481DCC9C85ebE478A1C0b69FCbb9"
        else if c = 10 then some "0x94b008aA00579c1307B0EF2c499aD98a8ce58e58"
        else if c = 8453 then some "0xfde4C96c8593536E31F229EA8f37b2ADa2699bb2"
        else if c = 43114 then some "0x9702230A8Ea53601f5cD2dc00fDBc13d4dF4A8c7"
        else if c = 56 then some "0x55d398326f99059fF775485246999027B3197955"
        else if c = 11155111 then some "0xaA8E23Fb1079EA71e0a56F48a2aA51851D8433D0"
        else none }
  | "DAI" => some
    { symbol := "DAI", name := "Dai Stablecoin", decimals := 18,
      addresses := fun c =>
        if c = 1 then some "0x6B175474E89094C44Da98b954EescdeCB5BE3830"
        else if c = 137 then some "0x8f3Cf7ad23Cd3CaDbD9735AFf958023239c6A063"
        else if c = 42161 then some "0xDA10009cBd5D07dd0CeCc66161FC93D7c9000da1"
        else if c = 10 then some "0xDA10009cBd5D07dd0CeCc66161FC93D7c9000da1"
        else if c = 8453 then some "0x50c5725949A6F0c72E6C4a641F24049A917DB0Cb"
        else if c = 43114 then some "0xd586E7F844cEa2F87f50152665BCbc2C279D8d70"
        else if c = 11155111 then some "0xFF34B3d4Aee8ddCd6F9AFFFB6Fe49bD371b8a357"
        else none }
  | "WETH" => some
    { symbol := "WETH", name := "Wrapped Ether", decimals := 18,
      addresses := fun c =>
        if c = 1 then some "0xC02aaA39b223FE8D0A0e5C4F27eAD9083C756Cc2"
        else if c = 137 then some "0x7ceB23fD6bC0adD59E62ac25578270cFf1b9f619"
        else if c = 42161 then some "0x82aF49447D8a07e3bd95BD0d56f35241523fBab1"
        else if c = 10 then some "0x4200000000000000000000000000000000000006"
        else if c = 8453 then some "0x4200000000000000000000000000000000000006"
        else if c = 43114 then some "0x49D5c2BdFfac6CE2BFdB6640F4F80f226bc10bAB"
        else if c = 11155111 then some "0x7b79995e5f793A07Bc00c21412e50Ecae098E7f9"
        else none }
  | "WBTC" => some
    { symbol := "WBTC", name := "Wrapped Bitcoin", decimals := 8,
      addresses := fun c =>
        if c = 1 then some "0x2260FAC5E5542a773Aa44fBCfeDf7C193bc2C599"
        else if c = 137 then some "0x1BFD67037B42Cf73acF2047067bd4F2C47D9BfD6"
        else if c = 42161 then some "0x2f2a2543B76A4166549F7aaB2e75Bef0aefC5B0f"
        else if c = 10 then some "0x68f180fcCe6836688e9084f035309E29Bf0A2095"
        else if c = 43114 then some "0x50b7545627a5162F82A992c33b87aDc75187B218"
        else none }
  | "WMATIC" => some
    { symbol := "WMATIC", name := "Wrapped Matic", decimals := 18,
      addresses := fun c =>
        if c = 137 then some "0x0d500B1d8E8eF31E21C99d1Db9A6444d3ADf1270" else none }
  | "WBNB" => some
    { symbol := "WBNB", name := "Wrapped BNB", decimals := 18,
      addresses := fun c =>
        if c = 56 then some "0xbb4CdB9CBd36B01bD1cBaEBF2De08d9173bc095c" else none }
  | "WAVAX" => some
    { symbol := "WAVAX", name := "Wrapped AVAX", decimals := 18,
      addresses := fun c =>
        if c = 43114 then some "0xB31f66AA3C1e785363F0875A1B74E27b85FD66c7" else none }
  | "LINK" => some
    { symbol := "LINK", name := "Chainlink", decimals := 18,
      addresses := fun c =>
        if c = 1 then some "0x514910771AF9Ca656af840dff83E8264EcF986CA"
        else if c = 137 then some "0x53E0bca35eC356BD5ddDFebbD1Fc0fD03FaBad39"
        else if c = 42161 then some "0xf97f4df75117a78c1A5a0DBb814Af92458539FB4"
        else if c = 10 then some "0x350a791Bfc2C21F9Ed5d10980Dad2e2638ffa7f6"
        else if c = 43114 then some "0x5947BB275c521040051D82396192181b413227A3"
        else if c = 11155111 then some "0x779877A7B0D9E8603169DdbD7836e478b4624789"
        else none }
  | "UNI" => some
    { symbol := "UNI", name := "Uniswap", decimals := 18,
      addresses := fun c =>
        if c = 1 then some "0x1f9840a85d5aF5bf1D1762F925BDADdC4201F984"
        else if c = 137 then some "0xb33EaAd8d922B1083446DC23f610c2567fB5180f"
        else if c = 42161 then some "0xFa7F8980b0f1E64A2062791cc3b0871572f1F7f0"
        else if c = 10 then some "0x6fd9d7AD17242c41f7131d257212c54A0e816691"
        else none }
  | "AAVE" => some
    { symbol := "AAVE", name := "Aave", decimals := 18,
      addresses := fun c =>
        if c = 1 then some "0x7Fc66500c84A76Ad7e9c93437bFc5Ac33E2DDaE9"
        else if c = 137 then some "0xD6DF932A45C0f255f85145f286eA0b292B21C90B"
        else if c = 42161 then some "0xba5DdD1f9d7F570dc94a51479a000E3BCE967196"
        else if c = 10 then some "0x76FB31fb4af56892A25e32cFC43De717950c9278"
        else if c = 43114 then some "0x63a72806098Bd3D9520cC43356dD78afe5D386D9"
        else none }
  | "PEPE" => some
    { symbol := "PEPE", name := "Pepe", decimals := 18,
      addresses := fun c =>
        if c = 1 then some "0x6982508145454Ce325dDbE47a25d4ec3d2311933" else none }
  | "SHIB" => some
    { symbol := "SHIB", name := "Shiba Inu", decimals := 18,
      addresses := fun c =>
        if c = 1 then some "0x95aD61b0a150d79219dCF64E1E6Cc01f0B64C4cE" else none }
  | _ => none

/-- `getToken` of `src/config/tokens.ts`: upper-case the symbol, look it up,
then look up the per-chain address. -/
def getTokenC (symbol : String) (chainId : Int) : Option TokenEntry :=
  match TOKENS (jsToUpper symbol) with
  | none => none
  | some t =>
    match t.addresses chainId with
    | none => none
    | some a => some { address := a, decimals := t.decimals, name := t.name }

/-- The per-chain native-symbol lists of `isNativeToken`
(`src/config/tokens.ts`). -/
def nativeTokensFor (chainId : Int) : List String :=
  if chainId = 1 then ["ETH", "ETHER"]
  else if chainId = 137 then ["MATIC", "POL"]
  else if chainId = 42161 then ["ETH", "ETHER"]
  else if chainId = 10 then ["ETH", "ETHER"]
  else if chainId = 8453 then ["ETH", "ETHER"]
  else if chainId = 43114 then ["AVAX"]
  else if chainId = 56 then ["BNB"]
  else if chainId = 11155111 then ["ETH", "ETHER"]
  else []

/-- `isNativeToken` of `src/config/tokens.ts`. -/
def isNativeTokenC (symbol : String) (chainId : Int) : Bool :=
  (nativeTokensFor chainId).contains (jsToUpper symbol)

/-- `WRAPPED_NATIVE` of `src/config/dex.ts`. -/
def WRAPPED_NATIVE (chainId : Int) : Option String :=
  if chainId = 1 then some "0xC02aaA39b223FE8D0A0e5C4F27eAD9083C756Cc2"
  else if chainId = 42161 then some "0x82aF49447D8a07e3bd95BD0d56f35241523fBab1"
  else if chainId = 137 then some "0x0d500B1d8E8eF31E21C99d1Db9A6444d3ADf1270"
  else if chainId = 10 then some "0x4200000000000000000000000000000000000006"
  else if chainId = 8453 then some "0x4200000000000000000000000000000000000006"
  else if chainId = 56 then some "0xbb4CdB9CBd36B01bD1cBaEBF2De08d9173bc095c"
  else if chainId = 43114 then some "0xB31f66AA3C1e785363F0875A1B74E27b85FD66c7"
  else if chainId = 11155111 then some "0xfFf9976782d46CC05630D1f6eBAb18b2324d6B14"
  else none

/-- One entry of the `NETWORKS` table (`src/config/agent.ts`). -/
structure NetworkConfig where
  chainId : Int
  name : String
  symbol : String
  rpcUrl : String
  explorerUrl : String
deriving Repr, DecidableEq

/-- The `NETWORKS` table of `src/config/agent.ts`. -/
def NETWORKS (chainId : Int) : Option NetworkConfig :=
  if chainId = 1 then some ⟨1, "Ethereum", "ETH",
    "https://ethereum-rpc.publicnode.com", "https://etherscan.io"⟩
  else if chainId = 42161 then some ⟨42161, "Arbitrum", "ETH",
    "https://arb1.arbitrum.io/rpc", "https://arbiscan.io"⟩
  else if chainId = 137 then some ⟨137, "Polygon", "MATIC",
    "https://polygon-bor-rpc.publicnode.com", "https://polygonscan.com"⟩
  else if chainId = 56 then some ⟨56, "BNB Chain", "BNB",
    "https://bsc-dataseed1.bnbchain.org", "https://bscscan.com"⟩
  else if chainId = 43114 then some ⟨43114, "Avalanche", "AVAX",
    "https://api.avax.network/ext/bc/C/rpc", "https://snowtrace.io"⟩
  else if chainId = 10 then some ⟨10, "Optimism", "ETH",
    "https://optimism-rpc.publicnode.com", "https://optimistic.etherscan.io"⟩
  else if chainId = 8453 then some ⟨8453, "Base", "ETH",
    "https://base-rpc.publicnode.com", "https://basescan.org"⟩
  else if chainId = 11155111 then some ⟨11155111, "Sepolia", "ETH",
    "https://ethereum-sepolia-rpc.publicnode.com", "https://sepolia.etherscan.io"⟩
  else none

/-- `getNativeSymbol` of `src/config/agent.ts`. -/
def getNativeSymbolC (chainId : Int) : String :=
  ((NETWORKS chainId).map (·.symbol)).getD "ETH"

/-- `NETWORK_NAMES` of `transfer.ts`. -/
def NETWORK_NAMES : String → Option Int
  | "ethereum" => some 1
  | "eth" => some 1
  | "mainnet" => some 1
  | "polygon" => some 137
  | "matic" => some 137
  | "arbitrum" => some 42161
  | "arb" => some 42161
  | "optimism" => some 10
  | "op" => some 10
  | "base" => some 8453
  | "avalanche" => some 43114
  | "avax" => some 43114
  | "bsc" => some 56
  | "bnb" => some 56
  | "sepolia" => some 11155111
  | _ => none

/-- `PROTOCOL_ADDRESSES` of `approve.ts`: protocol name (lower case) to a
per-chain well-known contract address. -/
def PROTOCOL_ADDRESSES : String → Option (Int → Option String)
  | "uniswap" => some (fun c =>
      if c = 1 then some "0x68b3465833fb72A70ecDF485E0e4C7bD8665Fc45"
      else if c = 137 then some "0x68b3465833fb72A70ecDF485E0e4C7bD8665Fc45"
      else if c = 42161 then some "0x68b3465833fb72A70ecDF485E0e4C7bD8665Fc45"
      else if c = 10 then some "0x68b3465833fb72A70ecDF485E0e4C7bD8665Fc45"
      else if c = 8453 then some "0x3fC91A3afd70395Cd496C647d5a6CC9D4B2b7FAD"
      else none)
  | "aave" => some (fun c =>
      if c = 1 then some "0x87870Bca3F3fD6335C3F4ce8392D69350B4fA4E2"
      else if c = 137 then some "0x794a61358D6845594F94dc1DB02A252b5b4814aD"
      else if c = 42161 then some "0x794a61358D6845594F94dc1DB02A252b5b4814aD"
      else if c = 10 then some "0x794a61358D6845594F94dc1DB02A252b5b4814aD"
      else if c = 43114 then some "0x794a61358D6845594F94dc1DB02A252b5b4814aD"
      else none)
  | "sushiswap" => some (fun c =>
      if c = 1 then some "0xd9e1cE17f2641f24aE83637ab66a2cca9C378B9F"
      else if c = 137 then some "0x1b02dA8Cb0d097eB8D57A175b88c7D8b47997506"
      else if c = 42161 then some "0x1b02dA8Cb0d097eB8D57A175b88c7D8b47997506"
      else none)
  | _ => none

/-! ### DEX registry (`src/config/dex.ts`) -/

/-- A decentralized-exchange venue configuration. A missing `quoterAddress`
record is modelled as the constantly-`none` map. -/
structure DexConfig where
  name : String
  slug : String
  routerAddress : Int → Option String
  quoterAddress : Int → Option String
  factoryAddress : Int → Option String
  website : String
  supportedChains : List Int

/-- `UNISWAP` of `src/config/dex.ts`. -/
def UNISWAP : DexConfig where
  name := "Uniswap"
  slug := "uniswap"
  routerAddress := fun c =>
    if c = 1 then some "0x68b3465833fb72A70ecDF485E0e4C7bD8665Fc45"
    else if c = 42161 then some "0x68b3465833fb72A70ecDF485E0e4C7bD8665Fc45"
    else if c = 137 then some "0x68b3465833fb72A70ecDF485E0e4C7bD8665Fc45"
    else if c = 10 then some "0x68b3465833fb72A70ecDF485E0e4C7bD8665Fc45"
    else if c = 8453 then some "0x2626664c2603336E57B271c5C0b26F421741e481"
    else if c = 56 then some "0xB971eF87ede563556b2ED4b1C0b0019111Dd85d2"
    else if c = 43114 then some "0xbb00FF08d01D300023C629E8fFfFcb65A5a578cE"
    else if c = 11155111 then some "0x3bFA4769FB09eefC5a80d6E87c3B9C650f7Ae48E"
    else none
  quoterAddress := fun c =>
    if c = 1 then some "0x61fFE014bA17989E743c5F6cB21bF9697530B21e"
    else if c = 42161 then some "0x61fFE014bA17989E743c5F6cB21bF9697530B21e"
    else if c = 137 then some "0x61fFE014bA17989E743c5F6cB21bF9697530B21e"
    else if c = 10 then some "0x61fFE014bA17989E743c5F6cB21bF9697530B21e"
    else if c = 8453 then some "0x3d4e44Eb1374240CE5F1B871ab261CD16335B76a"
    else if c = 56 then some "0x78D78E420Da98ad378D7799bE8f4AF69033EB077"
    else if c = 43114 then some "0xbe0F5544EC67e9B3b2D979aaA43f18Fd87E6257F"
    else if c = 11155111 then some "0xEd1f6473345F45b75F8179591dd5bA1888cf2FB3"
    else none
  factoryAddress := fun _ => none
  website := "https://uniswap.org"
  supportedChains := [1, 42161, 137, 10, 8453, 56, 43114, 11155111]

/-- `SUSHISWAP` of `src/config/dex.ts`. -/
def SUSHISWAP : DexConfig where
  name := "SushiSwap"
  slug := "sushiswap"
  routerAddress := fun c =>
    if c = 1 then some "0xd9e1cE17f2641f24aE83637ab66a2cca9C378B9F"
    else if c = 42161 then some "0x1b02dA8Cb0d097eB8D57A175b88c7D8b47997506"
    else if c = 137 then some "0x1b02dA8Cb0d097eB8D57A175b88c7D8b47997506"
    else if c = 10 then some "0x4C5D5234f232BD2D76B96aA33F5AE4FCF0E4BFAb"
    else if c = 56 then some "0x1b02dA8Cb0d097eB8D57A175b88c7D8b47997506"
    else if c = 43114 then some "0x1b02dA8Cb0d097eB8D57A175b88c7D8b47997506"
    else none
  quoterAddress := fun _ => none
  factoryAddress := fun c =>
    if c = 1 then some "0xC0AEe478e3658e2610c5F7A4A2E1777cE9e4f2Ac"
    else if c = 42161 then some "0xc35DADB65012eC5796536bD9864eD8773aBc74C4"
    else if c = 137 then some "0xc35DADB65012eC5796536bD9864eD8773aBc74C4"
    else if c = 10 then some "0xFbc12984689e5f15626Bad03Ad60160Fe98B303C"
    else if c = 56 then some "0xc35DADB65012eC5796536bD9864eD8773aBc74C4"
    else if c = 43114 then some "0xc35DADB65012eC5796536bD9864eD8773aBc74C4"
    else none
  website := "https://sushi.com"
  supportedChains := [1, 42161, 137, 10, 56, 43114]

/-- `CURVE` of `src/config/dex.ts`. -/
def CURVE : DexConfig where
  name := "Curve"
  slug := "curve"
  routerAddress := fun c =>
    if c = 1 then some "0x99a58482BD75cbab83b27EC03CA68fF489b5788f"
    else if c = 42161 then some "0xF0d4c12A5768D806021F80a262B4d39d26C58b8D"
    else if c = 137 then some "0xF0d4c12A5768D806021F80a262B4d39d26C58b8D"
    else if c = 10 then some "0x0DCDED3545D565bA3B19E683431381007245d983"
    else if c = 43114 then some "0x0DCDED3545D565bA3B19E683431381007245d983"
    else none
  quoterAddress := fun _ => none
  factoryAddress := fun _ => none
  website := "https://curve.fi"
  supportedChains := [1, 42161, 137, 10, 43114]

/-- `PANCAKESWAP` of `src/config/dex.ts`. -/
def PANCAKESWAP : DexConfig where
  name := "PancakeSwap"
  slug := "pancakeswap"
  routerAddress := fun c =>
    if c = 56 then some "0x10ED43C718714eb63d5aA57B78B54704E256024E"
    else if c = 1 then some "0x13f4EA83D0bd40E75C8222255bc855a974568Dd4"
    else if c = 42161 then some "0x8cFe327CEc66d1C090Dd72bd0FF11d690C33a2Eb"
    else none
  quoterAddress := fun _ => none
  factoryAddress := fun c =>
    if c = 56 then some "0xcA143Ce32Fe78f1f7019d7d551a6402fC5350c73"
    else if c = 1 then some "0x1097053Fd2ea711dad45caCcc45EfF7548fCB362"
    else if c = 42161 then some "0x02a84c1b3BBD7401a5f7fa98a384EBC70bB5749E"
    else none
  website := "https://pancakeswap.finance"
  supportedChains := [56, 1, 42161]

/-- `TRADERJOE` of `src/config/dex.ts`. -/
def TRADERJOE : DexConfig where
  name := "TraderJoe"
  slug := "traderjoe"
  routerAddress := fun c =>
    if c = 43114 then some "0xb4315e873dBcf96Ffd0acd8EA43f689D8c20fB30"
    else if c = 42161 then some "0xb4315e873dBcf96Ffd0acd8EA43f689D8c20fB30"
    else none
  quoterAddress := fun _ => none
  factoryAddress := fun _ => none
  website := "https://traderjoexyz.com"
  supportedChains := [43114, 42161]

/-- `DEX_PROTOCOLS` in registration (insertion) order; `Object.values`
enumerates in this order. -/
def DEX_LIST : List DexConfig := [UNISWAP, SUSHISWAP, CURVE, PANCAKESWAP, TRADERJOE]

/-- `DEX_PROTOCOLS` as a lookup by slug (`getDex` lower-cases its
argument before the lookup). -/
def getDexC (name : String) : Option DexConfig :=
  if jsToLower name = "uniswap" then some UNISWAP
  else if jsToLower name = "sushiswap" then some SUSHISWAP
  else if jsToLower name = "curve" then some CURVE
  else if jsToLower name = "pancakeswap" then some PANCAKESWAP
  else if jsToLower name = "traderjoe" then some TRADERJOE
  else none

/-- `getDexesForChain` of `src/config/dex.ts`. -/
def getDexesForChainC (chainId : Int) : List DexConfig :=
  DEX_LIST.filter (fun dex => dex.supportedChains.contains chainId)

/-- `FEE_TIERS.LOWEST` (0.01%). -/
def FEE_TIERS.LOWEST : Nat := 100

/-- `FEE_TIERS.LOW` (0.05%). -/
def FEE_TIERS.LOW : Nat := 500

/-- `FEE_TIERS.MEDIUM` (0.3%). -/
def FEE_TIERS.MEDIUM : Nat := 3000

/-- `FEE_TIERS.HIGH` (1%). -/
def FEE_TIERS.HIGH : Nat := 10000

/-- `DEFAULT_SLIPPAGE_BPS` (50 = 0.5%). -/
def DEFAULT_SLIPPAGE_BPS : Nat := 50

/-- `SWAP_DEADLINE_SECONDS` (20 minutes). -/
def SWAP_DEADLINE_SECONDS : Nat := 20 * 60

/-- `ethers.MaxUint256`. -/
def MaxUint256 : Nat := 2 ^ 256 - 1

/-- `ethers.ZeroAddress`. -/
def ZERO_ADDRESS : String := "0x0000000000000000000000000000000000000000"

/-! ### Error taxonomy

The source reports failures as message strings; the constructors below tag
each distinct failure site, carrying the data interpolated into the
message.  `thrown` stands for an exception of an external call that the
outer `try`/`catch` of a handler converts into an error result. -/

inductive TErr where
  | walletNotConnected
  | unknownNetwork (network : String)
  | recipientNotResolved (input : String)
  | tokenNotFound (input : String)
  | spenderNotResolved (input : String)
  | cannotSwapSelf
  | dexNotSupported (name : String)
  | dexNotOnChain (name : String)
  | noLiquidity
  | userNotFound
  | insufficientBalance (symbol : String) (balance : Nat)
  | thrown
deriving Repr, DecidableEq

/-! ### Identifier resolution -/

/-- Result of the swap module's `resolveToken` (`token-utils.ts`): native
inputs resolve to the wrapped-native address with `isNative := true`. -/
structure ResolvedTU where
  address : String
  symbol : String
  decimals : Nat
  isNative : Bool
deriving Repr, DecidableEq

/-- `resolveToken` of the swap module in `token-utils.ts`. -/
def resolveTokenTU (env : Env) (tokenInput : String) (chainId : Int) : Option ResolvedTU :=
  if env.isAddress tokenInput then
    some { address := tokenInput, symbol := "TOKEN", decimals := 18, isNative := false }
  else
    let normalizedInput := jsTrim (jsToLower tokenInput)
    let resolvedSymbol := (env.aliasTU normalizedInput).getD (jsToUpper tokenInput)
    if env.isNative resolvedSymbol chainId then
      match env.wrappedNative chainId with
      | none => none
      | some wrappedAddress =>
        some { address := wrappedAddress, symbol := resolvedSymbol, decimals := 18,
               isNative := true }
    else
      match env.getToken resolvedSymbol chainId with
      | some t =>
        some { address := t.address, symbol := resolvedSymbol, decimals := t.decimals,
               isNative := false }
      | none => none

/-- Result of `resolveToken` in `transfer.ts`: `address = none` denotes the
native asset. -/
structure ResolvedTr where
  address : Option String
  symbol : String
  decimals : Nat
deriving Repr, DecidableEq

/-- `resolveToken` of `transfer.ts`.  A missing or empty token input
(falsy in JS) denotes the native asset. -/
def resolveTokenTr (env : Env) (tokenInput : Option String) (chainId : Int) :
    Except TErr ResolvedTr :=
  match tokenInput with
  | none => .ok { address := none, symbol := env.nativeSymbol chainId, decimals := 18 }
  | some inp =>
    if inp = "" then
      .ok { address := none, symbol := env.nativeSymbol chainId, decimals := 18 }
    else if env.isAddress inp then
      .ok { address := some inp, symbol := "TOKEN", decimals := 18 }
    else
      let normalizedInput := jsTrim (jsToLower inp)
      let resolvedSymbol := (env.aliasTr normalizedInput).getD inp
      if env.isNative resolvedSymbol chainId then
        .ok { address := none, symbol := env.nativeSymbol chainId, decimals := 18 }
      else
        match env.getToken resolvedSymbol chainId with
        | some t =>
          .ok { address := some t.address, symbol := jsToUpper resolvedSymbol,
                decimals := t.decimals }
        | none => .error (.tokenNotFound inp)

/-- Result of `resolveToken` in `approve.ts`. -/
structure ResolvedAp where
  address : String
  symbol : String
  decimals : Nat
deriving Repr, DecidableEq

/-- `resolveToken` of `approve.ts` (no native-asset branch). -/
def resolveTokenAp (env : Env) (tokenInput : String) (chainId : Int) :
    Except TErr ResolvedAp :=
  if env.isAddress tokenInput then
    .ok { address := tokenInput, symbol := "TOKEN", decimals := 18 }
  else
    let normalizedInput := jsTrim (jsToLower tokenInput)
    let resolvedSymbol := (env.aliasAp normalizedInput).getD tokenInput
    match env.getToken resolvedSymbol chainId with
    | some t =>
      .ok { address := t.address, symbol := jsToUpper resolvedSymbol, decimals := t.decimals }
    | none => .error (.tokenNotFound tokenInput)

/-- Result of `resolveRecipient` in `transfer.ts`. -/
structure RecipientRes where
  address : String
  resolvedFrom : Option String
deriving Repr, DecidableEq

/-- The contact lookup inside `resolveRecipient`: the requesting user's
saved contacts searched by case-insensitive name. -/
def contactHit (env : Env) (userAddress recipient : String) : Option Contact :=
  match env.dbFindUser userAddress with
  | some user => user.contacts.find? (fun c => jsToLower c.name == jsToLower recipient)
  | none => none

/-- `resolveRecipient` of `transfer.ts`: address passthrough, then contact
name, then ENS on chains 1 and 11155111, otherwise an error. -/
def resolveRecipient (env : Env) (recipient userAddress : String) (chainId : Int) :
    Except TErr RecipientRes :=
  if env.isAddress recipient then
    .ok { address := recipient, resolvedFrom := none }
  else
    match contactHit env userAddress recipient with
    | some c =>
      .ok { address := c.address, resolvedFrom := some ("contact \"" ++ c.name ++ "\"") }
    | none =>
      if jsEndsWith recipient ".eth" && (chainId == 1 || chainId == 11155111) then
        match env.ensResolve recipient with
        | some ensAddress =>
          .ok { address := ensAddress, resolvedFrom := some ("ENS \"" ++ recipient ++ "\"") }
        | none => .error (.recipientNotResolved recipient)
      else .error (.recipientNotResolved recipient)

/-- `resolveSpender` of `approve.ts`: address passthrough, then the
well-known protocol table. -/
def resolveSpender (env : Env) (spender : String) (chainId : Int) :
    Except TErr (String × Option String) :=
  if env.isAddress spender then
    .ok (spender, none)
  else
    match PROTOCOL_ADDRESSES (jsToLower spender) with
    | some protocol =>
      match protocol chainId with
      | some addr => .ok (addr, some spender)
      | none => .error (.spenderNotResolved spender)
    | none => .error (.spenderNotResolved spender)

/-! ### Quote aggregation (`getAllQuotes` and helpers, `token-utils.ts`) -/

/-- Truthiness-and-positivity test `amountOut && amountOut > 0n` applied to
an optional quote result. -/
def isPosQ : Option Nat → Bool
  | some a => 0 < a
  | none => false

/-- The value of the `amountOut` loop variable after the fee-tier loop of
`getAllQuotes` for a Uniswap V3 venue: each tier is queried in order and
the loop breaks at the first positive result; the last attempted result is
retained otherwise. -/
def v3LoopResult (q : Nat → Option Nat) : List Nat → Option Nat
  | [] => none
  | fee :: rest =>
    let a? := q fee
    if rest.isEmpty then a?
    else if isPosQ a? then a? else v3LoopResult q rest

/-- Instrumentation of the same loop: the list of fee tiers for which a
quote call is actually issued (the loop breaks after the first tier with a
positive result, so no later tier is attempted). -/
def v3Attempts (q : Nat → Option Nat) : List Nat → List Nat
  | [] => []
  | fee :: rest => if isPosQ (q fee) then [fee] else fee :: v3Attempts q rest

/-- The fee tier discovered during quoting: the first tier in the attempt
order whose quote call returns a positive amount. -/
def v3DiscoveredTier (q : Nat → Option Nat) : List Nat → Option Nat
  | [] => none
  | fee :: rest => if isPosQ (q fee) then some fee else v3DiscoveredTier q rest

/-- The fixed tier attempt order `[FEE_TIERS.MEDIUM, FEE_TIERS.LOW,
FEE_TIERS.HIGH]` of `getAllQuotes`. -/
def FEE_TIER_ORDER : List Nat := [FEE_TIERS.MEDIUM, FEE_TIERS.LOW, FEE_TIERS.HIGH]

/-- The per-venue quote of the `getAllQuotes` loop body: Uniswap with a
quoter configured for the chain runs the V3 fee-tier loop, every other
venue with a router issues a single V2 `getAmountsOut` path quote. -/
def dexQuote (env : Env) (chainId : Int) (tokenIn tokenOut : String) (amountIn : Nat)
    (dex : DexConfig) : Option Nat :=
  if dex.slug == "uniswap" && (dex.quoterAddress chainId).isSome then
    match dex.quoterAddress chainId with
    | some quoter =>
      v3LoopResult (fun fee => env.v3quote quoter tokenIn tokenOut amountIn fee) FEE_TIER_ORDER
    | none => none
  else
    match dex.routerAddress chainId with
    | some router => env.v2quote router tokenIn tokenOut amountIn
    | none => none

/-- A viable quote: the producing venue and its output amount.  (The
display field `amountOutFormatted` of the source is derived presentation
data and not modelled.) -/
structure SwapQuote where
  dex : DexConfig
  amountOut : Nat

/-- The unsorted `quotes` array of `getAllQuotes`: one entry per venue of
the chain whose quote is present and positive, in venue registration
order. -/
def collectQuotes (env : Env) (chainId : Int) (tokenIn tokenOut : String) (amountIn : Nat) :
    List SwapQuote :=
  (getDexesForChainC chainId).filterMap (fun dex =>
    match dexQuote env chainId tokenIn tokenOut amountIn dex with
    | some a => if 0 < a then some { dex := dex, amountOut := a } else none
    | none => none)

/-- The comparator passed to `quotes.sort`:
`(a, b) => (b.amountOut > a.amountOut ? 1 : -1)`.  It returns 1 when `b`
has the larger output and -1 otherwise — it never returns 0, so tied
quotes are reported to the engine as strictly out of order in both
directions. -/
def quoteCmp (a b : SwapQuote) : Int := if a.amountOut < b.amountOut then 1 else -1

/-- The run scan inside V8's TimSort `CountAndMakeRun`: starting from the
predecessor `prev`, collect elements while `p current prev` holds of each
element and its predecessor; return the collected tail and the untouched
remainder. -/
def v8RunWhile (p : SwapQuote → SwapQuote → Bool) :
    SwapQuote → List SwapQuote → List SwapQuote × List SwapQuote
  | _, [] => ([], [])
  | prev, x :: xs =>
    if p x prev then
      (x :: (v8RunWhile p x xs).1, (v8RunWhile p x xs).2)
    else ([], x :: xs)

/-- `CountAndMakeRun` of V8's TimSort: the initial run is "descending"
when `compare(a[1], a[0]) < 0` and is extended while the comparator stays
negative, then reversed in place; otherwise an "ascending" run is
extended while the comparator is non-negative.  Because the quote
comparator never returns 0, a weakly ascending stretch of outputs counts
as "descending" and gets reversed — tied quotes swap their relative
order here. -/
def v8InitialRun : List SwapQuote → List SwapQuote × List SwapQuote
  | [] => ([], [])
  | [a] => ([a], [])
  | a :: b :: l =>
    if quoteCmp b a < 0 then
      ((a :: b :: (v8RunWhile (fun x prev => decide (quoteCmp x prev < 0)) b l).1).reverse,
        (v8RunWhile (fun x prev => decide (quoteCmp x prev < 0)) b l).2)
    else
      (a :: b :: (v8RunWhile (fun x prev => decide (0 ≤ quoteCmp x prev)) b l).1,
        (v8RunWhile (fun x prev => decide (0 ≤ quoteCmp x prev)) b l).2)

/-- One pivot placement of V8's `BinaryInsertionSort`: the binary search
moves left exactly when `compare(pivot, element) < 0` and so lands on the
leftmost position whose element `e` has `quoteCmp pivot e < 0`.  On the
weakly descending prefixes this sort maintains, that predicate is
monotone along the prefix, so the binary search coincides with placing
the pivot before the first `e` with `e.amountOut ≤ pivot.amountOut` —
in particular a pivot lands before every element tied with it. -/
def v8BinaryInsert (pivot : SwapQuote) : List SwapQuote → List SwapQuote
  | [] => [pivot]
  | e :: es =>
    if quoteCmp pivot e < 0 then pivot :: e :: es else e :: v8BinaryInsert pivot es

/-- Insert the elements left over after the initial run, one at a time,
in array order (`BinaryInsertionSort`'s outer loop). -/
def v8InsertAll : List SwapQuote → List SwapQuote → List SwapQuote
  | acc, [] => acc
  | acc, x :: xs => v8InsertAll (v8BinaryInsert x acc) xs

/-- `Array.prototype.sort` as V8 — the engine of the `node:20` runtime
this service ships on — executes it for arrays of fewer than 64 elements
(at most five venues ever quote here): TimSort computes the minimum run
length as the whole array length, so the sort is one `CountAndMakeRun`
over the array followed by binary insertion of the remaining elements,
with no merge step. -/
def v8SortQuotes (l : List SwapQuote) : List SwapQuote :=
  v8InsertAll (v8InitialRun l).1 (v8InitialRun l).2

/-- `getAllQuotes` of `token-utils.ts`: collect one viable quote per venue
of the chain, then `quotes.sort((a, b) => (b.amountOut > a.amountOut ? 1 : -1))`,
modelled by the V8 small-array sort the inconsistent comparator actually
drives. -/
def getAllQuotes (env : Env) (chainId : Int) (tokenIn tokenOut : String) (amountIn : Nat)
    (tokenOutDecimals : Nat) : List SwapQuote :=
  let _ := tokenOutDecimals
  v8SortQuotes (collectQuotes env chainId tokenIn tokenOut amountIn)

/-- Registration rank of a venue slug: its position in `DEX_PROTOCOLS`. -/
def slugRank : String → Nat
  | "uniswap" => 0
  | "sushiswap" => 1
  | "curve" => 2
  | "pancakeswap" => 3
  | "traderjoe" => 4
  | _ => 5

/-! ### Call-data construction (`buildSwapTransaction`, `token-utils.ts`) -/

/-- Structured stand-in for the hex payload produced through
`ethers.Interface.encodeFunctionData`, carrying exactly the encoder
arguments of each call site. -/
inductive CallData where
  | native
  | erc20Transfer (recipient : String) (amount : Nat)
  | erc20Approve (spender : String) (amount : Nat)
  | v3Multicall (deadline : Nat) (tokenIn tokenOut : String) (fee : Nat) (recipient : String)
      (amountIn : Nat) (amountOutMinimum : Nat) (sqrtPriceLimitX96 : Nat)
  | v2SwapExactETHForTokens (amountOutMin : Nat) (path : List String) (toAddr : String)
      (deadline : Nat)
  | v2SwapExactTokensForETH (amountIn amountOutMin : Nat) (path : List String) (toAddr : String)
      (deadline : Nat)
  | v2SwapExactTokensForTokens (amountIn amountOutMin : Nat) (path : List String) (toAddr : String)
      (deadline : Nat)
deriving Repr, DecidableEq

/-- The `{to, data, value}` triple returned by `buildSwapTransaction`
(`value` is the native amount in wei; a missing router address would flow
into `to` as `undefined` and is modelled as `none`). -/
structure BuiltTx where
  toAddr : Option String
  data : CallData
  value : Nat
deriving Repr, DecidableEq

/-- `buildSwapTransaction` of `token-utils.ts`.  The Uniswap branch always
encodes `fee: FEE_TIERS.MEDIUM`; the recipient is the zero address when
the output token is native, and the call is wrapped in a `multicall`
carrying the deadline.  The V2 branch picks one of three call shapes by
which side is native. -/
def buildSwapTransaction (dex : DexConfig) (chainId : Int) (tokenIn tokenOut : ResolvedTU)
    (amountIn amountOutMin : Nat) (recipient : String) (deadline : Nat) : BuiltTx :=
  let routerAddress := dex.routerAddress chainId
  if dex.slug == "uniswap" then
    { toAddr := routerAddress
      data := .v3Multicall deadline tokenIn.address tokenOut.address FEE_TIERS.MEDIUM
        (if tokenOut.isNative then ZERO_ADDRESS else recipient) amountIn amountOutMin 0
      value := if tokenIn.isNative then amountIn else 0 }
  else
    let path := [tokenIn.address, tokenOut.address]
    if tokenIn.isNative then
      { toAddr := routerAddress
        data := .v2SwapExactETHForTokens amountOutMin path recipient deadline
        value := amountIn }
    else if tokenOut.isNative then
      { toAddr := routerAddress
        data := .v2SwapExactTokensForETH amountIn amountOutMin path recipient deadline
        value := 0 }
    else
      { toAddr := routerAddress
        data := .v2SwapExactTokensForTokens amountIn amountOutMin path recipient deadline
        value := 0 }

/-- The slippage-adjusted minimum output
`(bestQuote.amountOut * BigInt(10000 - slippageBps)) / BigInt(10000)` of
the swap handler (`bigint` division truncates; both operands are
non-negative for `slippageBps < 10000`, so this is floor division). -/
def computeAmountOutMin (amountOut slippageBps : Nat) : Nat :=
  amountOut * (10000 - slippageBps) / 10000

/-! ### Handler outcomes -/

/-- A persisted `transaction` row (`db.transaction.create`), restricted to
the modelled fields. -/
structure TxRecord where
  chatId : String
  userId : String
  type : String
  status : String
  chainId : Int
  toAddr : Option String
  value : Nat
  data : CallData
  buttonText : String
deriving Repr, DecidableEq

/-- Socket publications of a handler run. -/
inductive EmitEv where
  | networkSwitch (chainId : Int)
  | pendingTransaction (id : String) (type : String)
deriving Repr, DecidableEq

/-- The observable outcome of one handler invocation: the returned result,
the rows persisted to the store and the events published to the
notification channel, in order. -/
structure Outcome (ρ : Type) where
  result : Except TErr ρ
  persisted : List TxRecord
  emitted : List EmitEv
deriving Repr

instance {ε α : Type} [DecidableEq ε] [DecidableEq α] : DecidableEq (Except ε α) :=
  fun a b =>
    match a, b with
    | .ok x, .ok y => if h : x = y then isTrue (by rw [h]) else isFalse (by simp [h])
    | .error x, .error y => if h : x = y then isTrue (by rw [h]) else isFalse (by simp [h])
    | .ok _, .error _ => isFalse (by simp)
    | .error _, .ok _ => isFalse (by simp)

instance (ρ : Type) [DecidableEq ρ] : DecidableEq (Outcome ρ) := fun a b => by
  cases a; cases b
  exact decidable_of_iff _ (iff_of_eq (Outcome.mk.injEq _ _ _ _ _ _)).symm

/-- Tool-call context (`context?.userAddress`, `context?.chainId`,
`context?.chatId`). -/
structure Ctx where
  userAddress : Option String
  chainId : Option Int
  chatId : Option String
deriving Repr, DecidableEq

/-- `context?.chainId || 1`: a missing (or zero, hence falsy) chain id
defaults to 1. -/
def jsOrChain (o : Option Int) : Int :=
  match o with
  | some c => if c = 0 then 1 else c
  | none => 1

/-- The effective decimals/symbol of an ERC-20 token: fetched on-chain via
`Promise.all([contract.decimals(), contract.symbol()])`, falling back to
the resolver's values when the fetch throws. -/
def erc20MetaOr (env : Env) (tokenAddr : String) (decimals : Nat) (symbol : String) :
    Nat × String :=
  match env.erc20Meta tokenAddr with
  | some ds => ds
  | none => (decimals, symbol)

/-! ### Transfer handler (`transfer.ts`) -/

/-- Parameters of the `transfer` tool. -/
structure TransferParams where
  toInput : String
  amount : String
  token : Option String
  network : Option String
deriving Repr, DecidableEq

/-- Success payload of the `transfer` tool (modelled fields). -/
structure TransferOk where
  toAddr : String
  resolvedFrom : Option String
  symbol : String
deriving Repr, DecidableEq

/-- The network-switch decision at the top of the transfer handler:
`NETWORK_NAMES[lower] || parseInt(network)`, skipped when the result is
`NaN` or equal to the current chain, failing when the target chain is not
in `NETWORKS`.  Returns the target chain when a switch happens. -/
def networkTarget (env : Env) (network : Option String) (chainId : Int) :
    Except TErr (Option Int) :=
  match network with
  | none => .ok none
  | some net =>
    let targetChainId : Option Int :=
      match NETWORK_NAMES (jsToLower net) with
      | some c => some c
      | none => env.parseIntJs net
    match targetChainId with
    | none => .ok none
    | some t =>
      if t = chainId then .ok none
      else
        match NETWORKS t with
        | none => .error (.unknownNetwork net)
        | some _ => .ok (some t)

/-- Gate the candidate socket publications of a handler run on whether the
socket layer works (`getIO()`/`emit` throwing is caught and swallowed at
every emit site, so a broken socket drops every publication and nothing
else). -/
def gateEmits {ρ : Type} (socketOk : Bool) (o : Outcome ρ) : Outcome ρ :=
  ⟨o.result, o.persisted, if socketOk then o.emitted else []⟩

/-- The tail of the transfer handler after the transaction fields are
determined: user-row lookup, row persistence and socket publication. -/
def finishTransfer (env : Env) (userAddress : String)
    (chatId : Option String) (chainId : Int) (rec : RecipientRes) (amount : String)
    (tokenSymbol : String) (txTo : Option String) (txValue : Nat) (txData : CallData)
    (emitted0 : List EmitEv) : Outcome TransferOk :=
  match env.dbFindUser userAddress with
  | none => ⟨.error .userNotFound, [], emitted0⟩
  | some user =>
    let buttonText := "Send " ++ amount ++ " " ++ tokenSymbol
    match env.dbCreateId with
    | none => ⟨.error .thrown, [], emitted0⟩
    | some txId =>
      let record : TxRecord :=
        { chatId := chatId.getD "", userId := user.id, type := "transfer",
          status := "pending", chainId := chainId, toAddr := txTo, value := txValue,
          data := txData, buttonText := buttonText }
      ⟨.ok { toAddr := rec.address, resolvedFrom := rec.resolvedFrom, symbol := tokenSymbol },
        [record], emitted0 ++ [.pendingTransaction txId "transfer"]⟩

/-- The `transfer` tool handler (`transfer.ts`): optional network switch,
recipient and token resolution, on-chain metadata fetch, preflight balance
check (whose query failure is swallowed), call-data construction,
persistence and publication. -/
def transferHandlerCore (env : Env) (p : TransferParams) (ctx : Ctx) :
    Outcome TransferOk :=
  match ctx.userAddress with
  | none => ⟨.error .walletNotConnected, [], []⟩
  | some userAddress =>
    let chainId0 := jsOrChain ctx.chainId
    match networkTarget env p.network chainId0 with
    | .error e => ⟨.error e, [], []⟩
    | .ok target =>
      let chainId := target.getD chainId0
      let emitted0 : List EmitEv :=
        match target with
        | some t => [.networkSwitch t]
        | none => []
      match resolveRecipient env p.toInput userAddress chainId with
      | .error e => ⟨.error e, [], emitted0⟩
      | .ok rec =>
        match resolveTokenTr env p.token chainId with
        | .error e => ⟨.error e, [], emitted0⟩
        | .ok tokenInfo =>
          match tokenInfo.address with
          | some tokenAddr =>
            let meta := erc20MetaOr env tokenAddr tokenInfo.decimals tokenInfo.symbol
            match env.parseUnits p.amount meta.1 with
            | none => ⟨.error .thrown, [], emitted0⟩
            | some amountWei =>
              let proceed : Unit → Outcome TransferOk := fun _ =>
                finishTransfer env userAddress ctx.chatId chainId rec p.amount
                  meta.2 (some tokenAddr) 0 (.erc20Transfer rec.address amountWei) emitted0
              match env.tokenBalance tokenAddr userAddress with
              | some balance =>
                if balance < amountWei then
                  ⟨.error (.insufficientBalance meta.2 balance), [], emitted0⟩
                else proceed ()
              | none => proceed ()
          | none =>
            match env.parseUnits p.amount 18 with
            | none => ⟨.error .thrown, [], emitted0⟩
            | some amountWei =>
              let proceed : Unit → Outcome TransferOk := fun _ =>
                finishTransfer env userAddress ctx.chatId chainId rec p.amount
                  tokenInfo.symbol (some rec.address) amountWei .native emitted0
              match env.nativeBalance userAddress with
              | some balance =>
                if balance < amountWei then
                  ⟨.error (.insufficientBalance tokenInfo.symbol balance), [], emitted0⟩
                else proceed ()
              | none => proceed ()

/-- The `transfer` tool handler (`transfer.ts`), with socket publications
gated on the socket layer working. -/
def transferHandler (env : Env) (socketOk : Bool) (p : TransferParams) (ctx : Ctx) :
    Outcome TransferOk :=
  gateEmits socketOk (transferHandlerCore env p ctx)

/-! ### Approval handler (`approve.ts`) -/

/-- Parameters of the `approve_token` tool. -/
structure ApproveParams where
  token : String
  spender : String
  amount : String
deriving Repr, DecidableEq

/-- Success payload of the `approve_token` tool (modelled fields). -/
structure ApproveOk where
  spender : String
  displayAmount : String
deriving Repr, DecidableEq

/-- The approval-amount interpretation of `approve.ts`: `"unlimited"` or
`"max"` (case-insensitive) selects `ethers.MaxUint256`, `"0"` or
`"revoke"` selects zero, anything else is parsed with the token's
decimals (`none` when `parseUnits` throws).  Also returns the display
string. -/
def approveAmount (env : Env) (amount : String) (tokenDecimals : Nat) :
    Option (Nat × String) :=
  if jsToLower amount == "unlimited" || jsToLower amount == "max" then
    some (MaxUint256, "unlimited")
  else if amount == "0" || jsToLower amount == "revoke" then
    some (0, "0 (revoke)")
  else
    match env.parseUnits amount tokenDecimals with
    | some w => some (w, amount)
    | none => none

/-- The `buttonText` of the approval handler. -/
def approveButtonText (displayAmount tokenSymbol : String) : String :=
  if displayAmount == "0 (revoke)" then "Revoke " ++ tokenSymbol ++ " approval"
  else "Approve " ++ displayAmount ++ " " ++ tokenSymbol

/-- The `approve_token` tool handler (`approve.ts`). -/
def approveHandlerCore (env : Env) (p : ApproveParams) (ctx : Ctx) :
    Outcome ApproveOk :=
  match ctx.userAddress with
  | none => ⟨.error .walletNotConnected, [], []⟩
  | some userAddress =>
    let chainId := jsOrChain ctx.chainId
    match resolveTokenAp env p.token chainId with
    | .error e => ⟨.error e, [], []⟩
    | .ok tokenInfo =>
      match resolveSpender env p.spender chainId with
      | .error e => ⟨.error e, [], []⟩
      | .ok sp =>
        let meta := erc20MetaOr env tokenInfo.address tokenInfo.decimals tokenInfo.symbol
        match approveAmount env p.amount meta.1 with
        | none => ⟨.error .thrown, [], []⟩
        | some ad =>
          match env.dbFindUser userAddress with
          | none => ⟨.error .userNotFound, [], []⟩
          | some user =>
            let buttonText := approveButtonText ad.2 meta.2
            match env.dbCreateId with
            | none => ⟨.error .thrown, [], []⟩
            | some txId =>
              let record : TxRecord :=
                { chatId := ctx.chatId.getD "", userId := user.id, type := "approve",
                  status := "pending", chainId := chainId, toAddr := some tokenInfo.address,
                  value := 0, data := .erc20Approve sp.1 ad.1, buttonText := buttonText }
              ⟨.ok { spender := sp.1, displayAmount := ad.2 }, [record],
                [.pendingTransaction txId "approve"]⟩

/-- The `approve_token` tool handler with gated socket publications. -/
def approveHandler (env : Env) (socketOk : Bool) (p : ApproveParams) (ctx : Ctx) :
    Outcome ApproveOk :=
  gateEmits socketOk (approveHandlerCore env p ctx)

/-! ### Swap handler (`swapTool.handler`, `token-utils.ts`) -/

/-- Parameters of the `swap_tokens` tool.  The percent-string slippage
input is parsed on the way in (`Math.round(parseFloat(s) * 100)`); the
model receives the resulting basis points. -/
structure SwapParams where
  fromToken : String
  toToken : String
  amount : String
  dex : Option String
  slippageBps : Option Nat
deriving Repr, DecidableEq

/-- Success payload of the `swap_tokens` tool (modelled fields). -/
structure SwapOk where
  dexName : String
  needsApproval : Bool
deriving Repr, DecidableEq

/-- The swap handler from the best-quote selection on: slippage-bounded
minimum output, deadline, allowance check, call-data construction,
user-row lookup, persistence and publication. -/
def swapWithQuotes (env : Env) (userAddress : String)
    (chatId : Option String) (chainId : Int) (fromTok toTok : ResolvedTU) (amount : String)
    (amountIn slippageBps : Nat) (quotes : List SwapQuote) : Outcome SwapOk :=
  match quotes with
  | [] => ⟨.error .noLiquidity, [], []⟩
  | bestQuote :: _ =>
    let amountOutMin := computeAmountOutMin bestQuote.amountOut slippageBps
    let deadline := env.now + SWAP_DEADLINE_SECONDS
    let allowanceRes : Except TErr Bool :=
      if fromTok.isNative then .ok false
      else
        match bestQuote.dex.routerAddress chainId with
        | none => .error .thrown
        | some router =>
          match env.allowance fromTok.address userAddress router with
          | none => .error .thrown
          | some currentAllowance => .ok (decide (currentAllowance < amountIn))
    match allowanceRes with
    | .error e => ⟨.error e, [], []⟩
    | .ok needsApproval =>
      let swapTx := buildSwapTransaction bestQuote.dex chainId fromTok toTok amountIn
        amountOutMin userAddress deadline
      match env.dbFindUser userAddress with
      | none => ⟨.error .userNotFound, [], []⟩
      | some user =>
        let buttonText := "Swap " ++ amount ++ " " ++ fromTok.symbol ++ " for ~" ++
          env.fmt bestQuote.amountOut toTok.decimals ++ " " ++ toTok.symbol
        match env.dbCreateId with
        | none => ⟨.error .thrown, [], []⟩
        | some txId =>
          let record : TxRecord :=
            { chatId := chatId.getD "", userId := user.id, type := "swap",
              status := "pending", chainId := chainId, toAddr := swapTx.toAddr,
              value := swapTx.value, data := swapTx.data, buttonText := buttonText }
          ⟨.ok { dexName := bestQuote.dex.name, needsApproval := needsApproval }, [record],
            [.pendingTransaction txId "swap"]⟩

/-- The quote-gathering step of the swap handler: a requested venue must
exist and support the chain; aggregation always runs over all venues and
the requested venue is filtered out of the ranked list afterwards. -/
def swapQuotesStep (env : Env) (userAddress : String)
    (chatId : Option String) (chainId : Int) (fromTok toTok : ResolvedTU) (amount : String)
    (amountIn slippageBps : Nat) (preferredDex : Option String) : Outcome SwapOk :=
  match preferredDex with
  | some pd =>
    match getDexC pd with
    | none => ⟨.error (.dexNotSupported pd), [], []⟩
    | some dex =>
      if dex.supportedChains.contains chainId then
        let quotes := (getAllQuotes env chainId fromTok.address toTok.address amountIn
          toTok.decimals).filter (fun q => q.dex.slug == pd)
        swapWithQuotes env userAddress chatId chainId fromTok toTok amount amountIn
          slippageBps quotes
      else ⟨.error (.dexNotOnChain dex.name), [], []⟩
  | none =>
    let quotes := getAllQuotes env chainId fromTok.address toTok.address amountIn
      toTok.decimals
    swapWithQuotes env userAddress chatId chainId fromTok toTok amount amountIn
      slippageBps quotes

/-- The `swap_tokens` tool handler (`token-utils.ts`): token resolution,
same-token rejection, amount parsing, preflight balance check, quote
aggregation and the preparation tail. -/
def swapHandlerCore (env : Env) (p : SwapParams) (ctx : Ctx) : Outcome SwapOk :=
  match ctx.userAddress with
  | none => ⟨.error .walletNotConnected, [], []⟩
  | some userAddress =>
    let chainId := jsOrChain ctx.chainId
    match resolveTokenTU env p.fromToken chainId with
    | none => ⟨.error (.tokenNotFound p.fromToken), [], []⟩
    | some fromTok =>
      match resolveTokenTU env p.toToken chainId with
      | none => ⟨.error (.tokenNotFound p.toToken), [], []⟩
      | some toTok =>
        if jsToLower fromTok.address == jsToLower toTok.address then
          ⟨.error .cannotSwapSelf, [], []⟩
        else
          match env.parseUnits p.amount fromTok.decimals with
          | none => ⟨.error .thrown, [], []⟩
          | some amountIn =>
            let slippageBps := p.slippageBps.getD DEFAULT_SLIPPAGE_BPS
            let afterBalance : Unit → Outcome SwapOk := fun _ =>
              swapQuotesStep env userAddress ctx.chatId chainId fromTok toTok
                p.amount amountIn slippageBps p.dex
            if fromTok.isNative then
              match env.nativeBalance userAddress with
              | none => ⟨.error .thrown, [], []⟩
              | some balance =>
                if balance < amountIn then
                  ⟨.error (.insufficientBalance fromTok.symbol balance), [], []⟩
                else afterBalance ()
            else
              match env.tokenBalance fromTok.address userAddress with
              | none => ⟨.error .thrown, [], []⟩
              | some balance =>
                if balance < amountIn then
                  ⟨.error (.insufficientBalance fromTok.symbol balance), [], []⟩
                else afterBalance ()

/-- The `swap_tokens` tool handler with gated socket publications. -/
def swapHandler (env : Env) (socketOk : Bool) (p : SwapParams) (ctx : Ctx) : Outcome SwapOk :=
  gateEmits socketOk (swapHandlerCore env p ctx)

/-! ### Concrete test environment used by the witnesses -/

/-- A plausible address-validity check for witness environments (the
theorems quantify over arbitrary `isAddress`). -/
def baseIsAddress (s : String) : Bool := jsStartsWith s "0x" && s.data.length == 42

/-- A fixed user wallet address for witnesses. -/
def USER : String := "0x1111111111111111111111111111111111111111"

/-- A concrete environment wiring the repository's registries
(`TOKEN_ALIASES`, `TOKENS`, `isNativeToken`, `WRAPPED_NATIVE`,
`NETWORKS`) to simple deterministic external collaborators. -/
def baseEnv : Env where
  isAddress := baseIsAddress
  aliasTU := TOKEN_ALIASES_swap
  aliasTr := TOKEN_ALIASES_transfer
  aliasAp := TOKEN_ALIASES_approve
  getToken := getTokenC
  isNative := isNativeTokenC
  wrappedNative := WRAPPED_NATIVE
  nativeSymbol := getNativeSymbolC
  parseUnits := fun _ _ => some 2000000
  parseIntJs := fun _ => none
  nativeBalance := fun _ => some 1000000000000000000
  tokenBalance := fun _ _ => some 5000000
  erc20Meta := fun _ => none
  v3quote := fun _ _ _ _ _ => none
  v2quote := fun _ _ _ _ => none
  allowance := fun _ _ _ => some 0
  ensResolve := fun _ => none
  dbFindUser := fun _ => some
    { id := "user-1",
      contacts := [{ name := "Alice",
                     address := "0x00000000000000000000000000000000000000aa" }] }
  dbCreateId := some "tx-1"
  now := 1700000000
  fmt := fun _ _ => "0.000000"

/-- Environment for quote-aggregation witnesses: the Uniswap V3 quoter
answers 100 at the mid tier, every V2 router answers 200 (producing a
three-way tie among the V2 venues of chain 1). -/
def quoteEnv : Env :=
  { baseEnv with
    v3quote := fun _ _ _ _ fee => if fee = 3000 then some 100 else none
    v2quote := fun _ _ _ _ => some 200 }

/-- Environment for fee-tier witnesses: the quoter returns zero at the mid
tier and 77 at the low tier. -/
def tierEnv : Env :=
  { baseEnv with
    v3quote := fun _ _ _ _ fee => if fee = 500 then some 77 else some 0 }

/-! ### Claim theorems -/

/-- C2: for every prepared swap, the slippage-adjusted minimum output is
`floor(amountOut * (10000 - slippageBps) / 10000)` for `slippageBps` in
`[0, 10000)`: it never exceeds the exact rational value and falls short of
it by less than one whole division unit, i.e. the division truncates and
never rounds up.  (`swapWithQuotes` computes its minimum output with
`computeAmountOutMin`.) -/
theorem amountOutMin_is_floor (amountOut slippageBps : Nat) (hs : slippageBps < 10000) :
    computeAmountOutMin amountOut slippageBps * 10000 ≤
      amountOut * (10000 - slippageBps) ∧
    amountOut * (10000 - slippageBps) <
      computeAmountOutMin amountOut slippageBps * 10000 + 10000 := by
  have hlt : 10000 - slippageBps ≤ 10000 := Nat.sub_le _ _
  have hd := Nat.div_add_mod (amountOut * (10000 - slippageBps)) 10000
  have hm : (amountOut * (10000 - slippageBps)) % 10000 < 10000 :=
    Nat.mod_lt _ (by omega)
  have hpos : 0 < 10000 - slippageBps := by omega
  unfold computeAmountOutMin
  omega

/-- Witness for the floor characterization at the spec's Scenario A
numbers: 0.05 output units (18 decimals) at 50 bps slippage. -/
theorem amountOutMin_is_floor_witness :
    (50 : Nat) < 10000 ∧
    (computeAmountOutMin 50000000000000000 50 * 10000 ≤
        50000000000000000 * (10000 - 50) ∧
      50000000000000000 * (10000 - 50) <
        computeAmountOutMin 50000000000000000 50 * 10000 + 10000) :=
  ⟨by decide, amountOutMin_is_floor 50000000000000000 50 (by decide)⟩

/-- C9: a token input that is already a well-formed address is returned
unchanged by all three `resolveToken` implementations (transfer, approve
and swap paths), whatever the alias tables and the token registry contain
(the environment, hence every table, is universally quantified).  A
well-formed address is non-empty, which rules out the falsy-input native
default of the transfer resolver. -/
theorem resolveToken_address_passthrough (env : Env) (input : String) (chainId : Int)
    (haddr : env.isAddress input = true) (hne : input ≠ "") :
    resolveTokenTU env input chainId =
      some { address := input, symbol := "TOKEN", decimals := 18, isNative := false } ∧
    resolveTokenTr env (some input) chainId =
      .ok { address := some input, symbol := "TOKEN", decimals := 18 } ∧
    resolveTokenAp env input chainId =
      .ok { address := input, symbol := "TOKEN", decimals := 18 } := by
  refine ⟨?_, ?_, ?_⟩ <;>
    simp [resolveTokenTU, resolveTokenTr, resolveTokenAp, haddr, hne]

/-- Witness: a concrete 20-byte hex address passes through all three
resolvers unchanged in the concrete environment. -/
theorem resolveToken_address_passthrough_witness :
    resolveTokenTU baseEnv USER 1 =
      some { address := USER, symbol := "TOKEN", decimals := 18, isNative := false } ∧
    resolveTokenTr baseEnv (some USER) 1 =
      .ok { address := some USER, symbol := "TOKEN", decimals := 18 } ∧
    resolveTokenAp baseEnv USER 1 =
      .ok { address := USER, symbol := "TOKEN", decimals := 18 } :=
  resolveToken_address_passthrough baseEnv USER 1 (by decide) (by decide)

/-- C5: `resolveRecipient` follows exactly the precedence
address-passthrough, then saved contact of the requesting user
(case-insensitive), then ENS on the chains that support it, and otherwise
fails with the recipient-resolution error; an ENS lookup that yields
nothing also falls through to the error. -/
theorem resolveRecipient_precedence (env : Env) (recipient userAddress : String)
    (chainId : Int) :
    (env.isAddress recipient = true →
      resolveRecipient env recipient userAddress chainId =
        .ok { address := recipient, resolvedFrom := none }) ∧
    (env.isAddress recipient = false →
      ∀ c, contactHit env userAddress recipient = some c →
        resolveRecipient env recipient userAddress chainId =
          .ok { address := c.address,
                resolvedFrom := some ("contact \"" ++ c.name ++ "\"") }) ∧
    (env.isAddress recipient = false →
      contactHit env userAddress recipient = none →
      (jsEndsWith recipient ".eth" && (chainId == 1 || chainId == 11155111)) = true →
      (∀ a, env.ensResolve recipient = some a →
          resolveRecipient env recipient userAddress chainId =
            .ok { address := a, resolvedFrom := some ("ENS \"" ++ recipient ++ "\"") }) ∧
        (env.ensResolve recipient = none →
          resolveRecipient env recipient userAddress chainId =
            .error (.recipientNotResolved recipient))) ∧
    (env.isAddress recipient = false →
      contactHit env userAddress recipient = none →
      (jsEndsWith recipient ".eth" && (chainId == 1 || chainId == 11155111)) = false →
      resolveRecipient env recipient userAddress chainId =
        .error (.recipientNotResolved recipient)) := by
  refine ⟨fun h => ?_, fun h c hc => ?_, fun h hc hens => ⟨fun a ha => ?_, fun ha => ?_⟩,
    fun h hc hens => ?_⟩
  · simp [resolveRecipient, h]
  · simp [resolveRecipient, h, hc]
  · simp [resolveRecipient, h, hc, hens, ha]
  · simp [resolveRecipient, h, hc, hens, ha]
  · simp [resolveRecipient, h, hc, hens]

/-- Witness: the saved contact "Alice" resolves (case-insensitively) for
the requesting user in the concrete environment. -/
theorem resolveRecipient_precedence_witness :
    resolveRecipient baseEnv "alice" USER 1 =
      .ok { address := "0x00000000000000000000000000000000000000aa",
            resolvedFrom := some ("contact \"" ++ "Alice" ++ "\"") } :=
  (resolveRecipient_precedence baseEnv "alice" USER 1).2.1 (by decide)
    { name := "Alice", address := "0x00000000000000000000000000000000000000aa" }
    (by decide)

/-- C10: a swap whose two inputs resolve to the same address
(case-insensitively) is rejected before anything else happens: the
outcome is the self-swap error with no persisted record and no published
event, for every environment — in particular independently of the balance,
quote, store and socket collaborators, so no balance check or quote call
can have been issued.  Native inputs resolve to the wrapped-native
address, so a native asset paired with its own wrapped form hits this
rejection (see the witness). -/
theorem swap_rejects_same_token (env : Env) (socketOk : Bool) (p : SwapParams) (ctx : Ctx)
    (u : String) (fromTok toTok : ResolvedTU)
    (hu : ctx.userAddress = some u)
    (hf : resolveTokenTU env p.fromToken (jsOrChain ctx.chainId) = some fromTok)
    (ht : resolveTokenTU env p.toToken (jsOrChain ctx.chainId) = some toTok)
    (heq : jsToLower fromTok.address = jsToLower toTok.address) :
    swapHandler env socketOk p ctx = ⟨.error .cannotSwapSelf, [], []⟩ := by
  simp [swapHandler, gateEmits, swapHandlerCore, hu, hf, ht, heq]

/-- Witness: swapping "ETH" for "WETH" on chain 1 — the native input
resolves to the wrapped-native WETH address, the WETH input resolves to
the same registry address — is rejected with no record and no event. -/
theorem swap_rejects_same_token_witness :
    swapHandler baseEnv true
      { fromToken := "ETH", toToken := "WETH", amount := "1", dex := none,
        slippageBps := none }
      { userAddress := some USER, chainId := some 1, chatId := none } =
      ⟨.error .cannotSwapSelf, [], []⟩ :=
  swap_rejects_same_token baseEnv true _ _ USER
    { address := "0xC02aaA39b223FE8D0A0e5C4F27eAD9083C756Cc2", symbol := "ETH",
      decimals := 18, isNative := true }
    { address := "0xC02aaA39b223FE8D0A0e5C4F27eAD9083C756Cc2", symbol := "WETH",
      decimals := 18, isNative := false }
    rfl (by decide) (by decide) rfl


/-- Error outcomes of the preparation tail never persist a row, and a
persisted row implies a success result (helper for the swap tail). -/
theorem swapWithQuotes_persisted_success (env : Env) (u : String) (chat : Option String)
    (cid : Int) (f t : ResolvedTU) (amt : String) (aIn slip : Nat) (qs : List SwapQuote) :
    (swapWithQuotes env u chat cid f t amt aIn slip qs).persisted ≠ [] →
    ∃ d, (swapWithQuotes env u chat cid f t amt aIn slip qs).result = .ok d := by
  simp only [swapWithQuotes]
  repeat' split
  all_goals simp

/-- Helper: a persisted row implies success through the quote-gathering
step. -/
theorem swapQuotesStep_persisted_success (env : Env) (u : String) (chat : Option String)
    (cid : Int) (f t : ResolvedTU) (amt : String) (aIn slip : Nat) (pd : Option String) :
    (swapQuotesStep env u chat cid f t amt aIn slip pd).persisted ≠ [] →
    ∃ d, (swapQuotesStep env u chat cid f t amt aIn slip pd).result = .ok d := by
  simp only [swapQuotesStep]
  repeat' split
  all_goals first
    | apply swapWithQuotes_persisted_success
    | simp

/-- Helper: a persisted row implies success for the whole swap handler
core. -/
theorem swapCore_persisted_success (env : Env) (p : SwapParams) (ctx : Ctx) :
    (swapHandlerCore env p ctx).persisted ≠ [] →
    ∃ d, (swapHandlerCore env p ctx).result = .ok d := by
  simp only [swapHandlerCore]
  repeat' split
  all_goals first
    | apply swapQuotesStep_persisted_success
    | simp

/-- Helper: a persisted row implies success for the transfer tail. -/
theorem finishTransfer_persisted_success (env : Env) (u : String) (chat : Option String)
    (cid : Int) (r : RecipientRes) (amt sym : String) (txTo : Option String) (txValue : Nat)
    (txData : CallData) (em0 : List EmitEv) :
    (finishTransfer env u chat cid r amt sym txTo txValue txData em0).persisted ≠ [] →
    ∃ d, (finishTransfer env u chat cid r amt sym txTo txValue txData em0).result = .ok d := by
  simp only [finishTransfer]
  repeat' split
  all_goals simp

/-- Helper: a persisted row implies success for the transfer handler
core. -/
theorem transferCore_persisted_success (env : Env) (p : TransferParams) (ctx : Ctx) :
    (transferHandlerCore env p ctx).persisted ≠ [] →
    ∃ d, (transferHandlerCore env p ctx).result = .ok d := by
  simp only [transferHandlerCore]
  repeat' split
  all_goals first
    | apply finishTransfer_persisted_success
    | simp

/-- Helper: a persisted row implies success for the approval handler
core. -/
theorem approveCore_persisted_success (env : Env) (p : ApproveParams) (ctx : Ctx) :
    (approveHandlerCore env p ctx).persisted ≠ [] →
    ∃ d, (approveHandlerCore env p ctx).result = .ok d := by
  simp only [approveHandlerCore]
  repeat' split
  all_goals simp

/-- C7: across the transfer, approval and swap handlers, the result and the
persisted rows are the same whether the notification publish succeeds or
fails (the failure is swallowed, never rolled back), and whenever a
pending row was persisted the handler reports success. -/
theorem publish_failure_swallowed :
    (∀ (env : Env) (b₁ b₂ : Bool) (p : SwapParams) (ctx : Ctx),
      (swapHandler env b₁ p ctx).result = (swapHandler env b₂ p ctx).result ∧
      (swapHandler env b₁ p ctx).persisted = (swapHandler env b₂ p ctx).persisted) ∧
    (∀ (env : Env) (b : Bool) (p : SwapParams) (ctx : Ctx),
      (swapHandler env b p ctx).persisted ≠ [] →
      ∃ d, (swapHandler env b p ctx).result = .ok d) ∧
    (∀ (env : Env) (b₁ b₂ : Bool) (p : TransferParams) (ctx : Ctx),
      (transferHandler env b₁ p ctx).result = (transferHandler env b₂ p ctx).result ∧
      (transferHandler env b₁ p ctx).persisted = (transferHandler env b₂ p ctx).persisted) ∧
    (∀ (env : Env) (b : Bool) (p : TransferParams) (ctx : Ctx),
      (transferHandler env b p ctx).persisted ≠ [] →
      ∃ d, (transferHandler env b p ctx).result = .ok d) ∧
    (∀ (env : Env) (b₁ b₂ : Bool) (p : ApproveParams) (ctx : Ctx),
      (approveHandler env b₁ p ctx).result = (approveHandler env b₂ p ctx).result ∧
      (approveHandler env b₁ p ctx).persisted = (approveHandler env b₂ p ctx).persisted) ∧
    (∀ (env : Env) (b : Bool) (p : ApproveParams) (ctx : Ctx),
      (approveHandler env b p ctx).persisted ≠ [] →
      ∃ d, (approveHandler env b p ctx).result = .ok d) :=
  ⟨fun _ _ _ _ _ => ⟨rfl, rfl⟩,
   fun env _ p ctx => swapCore_persisted_success env p ctx,
   fun _ _ _ _ _ => ⟨rfl, rfl⟩,
   fun env _ p ctx => transferCore_persisted_success env p ctx,
   fun _ _ _ _ _ => ⟨rfl, rfl⟩,
   fun env _ p ctx => approveCore_persisted_success env p ctx⟩

/-- Witness for the publish-failure claim: a concrete transfer with the
socket publish failing still persists its row and reports success. -/
theorem publish_failure_swallowed_witness :
    ∃ d, (transferHandler baseEnv false
      { toInput := USER, amount := "1.5", token := none, network := none }
      { userAddress := some USER, chainId := some 1, chatId := none }).result = .ok d :=
  publish_failure_swallowed.2.2.2.1 baseEnv false
    { toInput := USER, amount := "1.5", token := none, network := none }
    { userAddress := some USER, chainId := some 1, chatId := none }
    (by decide)

/-- C8: the approval handler's three symbolic amount forms.  "unlimited"
or "max" (case-insensitive) encodes `MaxUint256` in the persisted approve
call; "0" or "revoke" encodes zero and yields a `buttonText` containing
"Revoke"; any other string is parsed with the (effective) token
decimals. -/
theorem approve_amount_forms (env : Env) (socketOk : Bool) (p : ApproveParams) (ctx : Ctx)
    (u : String) (tok : ResolvedAp) (sp : String × Option String) (user : UserRec)
    (txId : String)
    (hu : ctx.userAddress = some u)
    (htok : resolveTokenAp env p.token (jsOrChain ctx.chainId) = .ok tok)
    (hsp : resolveSpender env p.spender (jsOrChain ctx.chainId) = .ok sp)
    (huser : env.dbFindUser u = some user)
    (hcreate : env.dbCreateId = some txId) :
    ((jsToLower p.amount = "unlimited" ∨ jsToLower p.amount = "max") →
      ∃ r, (approveHandler env socketOk p ctx).persisted = [r] ∧
        r.data = .erc20Approve sp.1 MaxUint256) ∧
    ((p.amount = "0" ∨ jsToLower p.amount = "revoke") →
      ∃ r, (approveHandler env socketOk p ctx).persisted = [r] ∧
        r.data = .erc20Approve sp.1 0 ∧
        ∃ s t, r.buttonText = s ++ "Revoke" ++ t) ∧
    (∀ w, (jsToLower p.amount == "unlimited") = false →
      (jsToLower p.amount == "max") = false →
      (p.amount == "0") = false → (jsToLower p.amount == "revoke") = false →
      env.parseUnits p.amount
        (erc20MetaOr env tok.address tok.decimals tok.symbol).1 = some w →
      ∃ r, (approveHandler env socketOk p ctx).persisted = [r] ∧
        r.data = .erc20Approve sp.1 w) := by
  refine ⟨fun hform => ?_, fun hform => ?_, fun w h1 h2 h3 h4 hparse => ?_⟩
  · have hamt : approveAmount env p.amount
        (erc20MetaOr env tok.address tok.decimals tok.symbol).1 =
        some (MaxUint256, "unlimited") := by
      have e1 : (("unlimited" : String) == "unlimited") = true := by decide
      have e2 : (("max" : String) == "unlimited") = false := by decide
      have e3 : (("max" : String) == "max") = true := by decide
      rcases hform with h | h <;> simp [approveAmount, h, e1, e2, e3]
    refine
      ⟨{ chatId := ctx.chatId.getD "", userId := user.id, type := "approve",
         status := "pending", chainId := jsOrChain ctx.chainId,
         toAddr := some tok.address, value := 0,
         data := .erc20Approve sp.1 MaxUint256,
         buttonText := approveButtonText "unlimited"
           (erc20MetaOr env tok.address tok.decimals tok.symbol).2 }, ?_, rfl⟩
    simp [approveHandler, gateEmits, approveHandlerCore, hu, htok, hsp, hamt, huser, hcreate]
  · have hamt : approveAmount env p.amount
        (erc20MetaOr env tok.address tok.decimals tok.symbol).1 =
        some (0, "0 (revoke)") := by
      have e1 : jsToLower "0" = "0" := by decide
      have e2 : (("0" : String) == "unlimited") = false := by decide
      have e3 : (("0" : String) == "max") = false := by decide
      have e4 : (("0" : String) == "0") = true := by decide
      have e5 : (("revoke" : String) == "unlimited") = false := by decide
      have e6 : (("revoke" : String) == "max") = false := by decide
      have e7 : (("revoke" : String) == "revoke") = true := by decide
      rcases hform with h | h <;> simp [approveAmount, h, e1, e2, e3, e4, e5, e6, e7]
    have hbeq : (("0 (revoke)" : String) == "0 (revoke)") = true := by decide
    have hlit : ("Revoke " : String) = "Revoke" ++ " " := by decide
    have hbt0 : approveButtonText "0 (revoke)"
        (erc20MetaOr env tok.address tok.decimals tok.symbol).2 =
        "Revoke " ++ (erc20MetaOr env tok.address tok.decimals tok.symbol).2 ++
          " approval" := by
      simp [approveButtonText, hbeq]
    have hbt : approveButtonText "0 (revoke)"
        (erc20MetaOr env tok.address tok.decimals tok.symbol).2 =
        "" ++ "Revoke" ++ (" " ++
          (erc20MetaOr env tok.address tok.decimals tok.symbol).2 ++ " approval") := by
      rw [hbt0, String.empty_append, hlit, String.append_assoc, String.append_assoc,
        String.append_assoc]
    refine
      ⟨{ chatId := ctx.chatId.getD "", userId := user.id, type := "approve",
         status := "pending", chainId := jsOrChain ctx.chainId,
         toAddr := some tok.address, value := 0,
         data := .erc20Approve sp.1 0,
         buttonText := approveButtonText "0 (revoke)"
           (erc20MetaOr env tok.address tok.decimals tok.symbol).2 }, ?_, rfl, "",
       " " ++ (erc20MetaOr env tok.address tok.decimals tok.symbol).2 ++ " approval", hbt⟩
    simp [approveHandler, gateEmits, approveHandlerCore, hu, htok, hsp, hamt, huser, hcreate]
  · have hamt : approveAmount env p.amount
        (erc20MetaOr env tok.address tok.decimals tok.symbol).1 = some (w, p.amount) := by
      simp [approveAmount, h1, h2, h3, h4, hparse]
    refine
      ⟨{ chatId := ctx.chatId.getD "", userId := user.id, type := "approve",
         status := "pending", chainId := jsOrChain ctx.chainId,
         toAddr := some tok.address, value := 0,
         data := .erc20Approve sp.1 w,
         buttonText := approveButtonText p.amount
           (erc20MetaOr env tok.address tok.decimals tok.symbol).2 }, ?_, rfl⟩
    simp [approveHandler, gateEmits, approveHandlerCore, hu, htok, hsp, hamt, huser, hcreate]

/-- Witness for the three approval amount forms at a concrete USDC
approval for the Uniswap protocol spender on chain 1. -/
theorem approve_amount_forms_witness :
    (∃ r, (approveHandler baseEnv true
        { token := "USDC", spender := "uniswap", amount := "unlimited" }
        { userAddress := some USER, chainId := some 1, chatId := none }).persisted = [r] ∧
      r.data = .erc20Approve "0x68b3465833fb72A70ecDF485E0e4C7bD8665Fc45" MaxUint256) ∧
    (∃ r, (approveHandler baseEnv true
        { token := "USDC", spender := "uniswap", amount := "0" }
        { userAddress := some USER, chainId := some 1, chatId := none }).persisted = [r] ∧
      r.data = .erc20Approve "0x68b3465833fb72A70ecDF485E0e4C7bD8665Fc45" 0 ∧
      ∃ s t, r.buttonText = s ++ "Revoke" ++ t) ∧
    (∃ r, (approveHandler baseEnv true
        { token := "USDC", spender := "uniswap", amount := "7" }
        { userAddress := some USER, chainId := some 1, chatId := none }).persisted = [r] ∧
      r.data = .erc20Approve "0x68b3465833fb72A70ecDF485E0e4C7bD8665Fc45" 2000000) :=
  ⟨(approve_amount_forms baseEnv true _ _ USER
      { address := "0xA0b86991c6218b36c1d19D4a2e9Eb0cE3606eB48", symbol := "USDC",
        decimals := 6 }
      ("0x68b3465833fb72A70ecDF485E0e4C7bD8665Fc45", some "uniswap")
      { id := "user-1",
        contacts := [{ name := "Alice",
                       address := "0x00000000000000000000000000000000000000aa" }] }
      "tx-1" rfl (by decide) (by decide) (by decide) rfl).1 (.inl (by decide)),
   (approve_amount_forms baseEnv true _ _ USER
      { address := "0xA0b86991c6218b36c1d19D4a2e9Eb0cE3606eB48", symbol := "USDC",
        decimals := 6 }
      ("0x68b3465833fb72A70ecDF485E0e4C7bD8665Fc45", some "uniswap")
      { id := "user-1",
        contacts := [{ name := "Alice",
                       address := "0x00000000000000000000000000000000000000aa" }] }
      "tx-1" rfl (by decide) (by decide) (by decide) rfl).2.1 (.inl rfl),
   (approve_amount_forms baseEnv true _ _ USER
      { address := "0xA0b86991c6218b36c1d19D4a2e9Eb0cE3606eB48", symbol := "USDC",
        decimals := 6 }
      ("0x68b3465833fb72A70ecDF485E0e4C7bD8665Fc45", some "uniswap")
      { id := "user-1",
        contacts := [{ name := "Alice",
                       address := "0x00000000000000000000000000000000000000aa" }] }
      "tx-1" rfl (by decide) (by decide) (by decide) rfl).2.2 2000000
      (by decide) (by decide) (by decide) (by decide) rfl⟩

/-- Helper: no step after a passed balance check in the swap tail can
produce an insufficient-balance error. -/
theorem swapWithQuotes_no_insufficient (env : Env) (u : String) (chat : Option String)
    (cid : Int) (f t : ResolvedTU) (amt : String) (aIn slip : Nat) (qs : List SwapQuote)
    (s : String) (b : Nat) :
    (swapWithQuotes env u chat cid f t amt aIn slip qs).result ≠
      .error (.insufficientBalance s b) := by
  simp only [swapWithQuotes]
  repeat' split
  all_goals try simp
  all_goals rename_i heq
  all_goals repeat' split at heq
  all_goals cases heq
  all_goals simp

/-- Helper: the quote-gathering step never produces an
insufficient-balance error. -/
theorem swapQuotesStep_no_insufficient (env : Env) (u : String) (chat : Option String)
    (cid : Int) (f t : ResolvedTU) (amt : String) (aIn slip : Nat) (pd : Option String)
    (s : String) (b : Nat) :
    (swapQuotesStep env u chat cid f t amt aIn slip pd).result ≠
      .error (.insufficientBalance s b) := by
  simp only [swapQuotesStep]
  repeat' split
  all_goals first
    | apply swapWithQuotes_no_insufficient
    | simp

/-- Helper: the transfer tail never produces an insufficient-balance
error. -/
theorem finishTransfer_no_insufficient (env : Env) (u : String) (chat : Option String)
    (cid : Int) (r : RecipientRes) (amt sym : String) (txTo : Option String) (txValue : Nat)
    (txData : CallData) (em0 : List EmitEv) (s : String) (b : Nat) :
    (finishTransfer env u chat cid r amt sym txTo txValue txData em0).result ≠
      .error (.insufficientBalance s b) := by
  simp only [finishTransfer]
  repeat' split
  all_goals simp

/-- C6: in both the transfer and the swap handler, for both the native and
the ERC-20 asset branch, when the preflight balance query succeeds the
request is rejected with an insufficient-balance error exactly when
`balance < requiredAmount` (equality passes), and a rejection persists no
transaction record. -/
theorem balance_check_boundary :
    (∀ (env : Env) (sk : Bool) (p : TransferParams) (ctx : Ctx) (u : String)
       (target : Option Int) (r : RecipientRes) (tok : ResolvedTr) (tokenAddr : String)
       (w bal : Nat),
      ctx.userAddress = some u →
      networkTarget env p.network (jsOrChain ctx.chainId) = .ok target →
      resolveRecipient env p.toInput u (target.getD (jsOrChain ctx.chainId)) = .ok r →
      resolveTokenTr env p.token (target.getD (jsOrChain ctx.chainId)) = .ok tok →
      tok.address = some tokenAddr →
      env.parseUnits p.amount (erc20MetaOr env tokenAddr tok.decimals tok.symbol).1 =
        some w →
      env.tokenBalance tokenAddr u = some bal →
      ((bal < w →
        (transferHandler env sk p ctx).result =
          .error (.insufficientBalance
            (erc20MetaOr env tokenAddr tok.decimals tok.symbol).2 bal) ∧
        (transferHandler env sk p ctx).persisted = []) ∧
       (w ≤ bal → ∀ s b,
        (transferHandler env sk p ctx).result ≠ .error (.insufficientBalance s b)))) ∧
    (∀ (env : Env) (sk : Bool) (p : TransferParams) (ctx : Ctx) (u : String)
       (target : Option Int) (r : RecipientRes) (tok : ResolvedTr) (w bal : Nat),
      ctx.userAddress = some u →
      networkTarget env p.network (jsOrChain ctx.chainId) = .ok target →
      resolveRecipient env p.toInput u (target.getD (jsOrChain ctx.chainId)) = .ok r →
      resolveTokenTr env p.token (target.getD (jsOrChain ctx.chainId)) = .ok tok →
      tok.address = none →
      env.parseUnits p.amount 18 = some w →
      env.nativeBalance u = some bal →
      ((bal < w →
        (transferHandler env sk p ctx).result =
          .error (.insufficientBalance tok.symbol bal) ∧
        (transferHandler env sk p ctx).persisted = []) ∧
       (w ≤ bal → ∀ s b,
        (transferHandler env sk p ctx).result ≠ .error (.insufficientBalance s b)))) ∧
    (∀ (env : Env) (sk : Bool) (p : SwapParams) (ctx : Ctx) (u : String)
       (fromTok toTok : ResolvedTU) (w bal : Nat),
      ctx.userAddress = some u →
      resolveTokenTU env p.fromToken (jsOrChain ctx.chainId) = some fromTok →
      resolveTokenTU env p.toToken (jsOrChain ctx.chainId) = some toTok →
      (jsToLower fromTok.address == jsToLower toTok.address) = false →
      env.parseUnits p.amount fromTok.decimals = some w →
      fromTok.isNative = true →
      env.nativeBalance u = some bal →
      ((bal < w →
        (swapHandler env sk p ctx).result =
          .error (.insufficientBalance fromTok.symbol bal) ∧
        (swapHandler env sk p ctx).persisted = []) ∧
       (w ≤ bal → ∀ s b,
        (swapHandler env sk p ctx).result ≠ .error (.insufficientBalance s b)))) ∧
    (∀ (env : Env) (sk : Bool) (p : SwapParams) (ctx : Ctx) (u : String)
       (fromTok toTok : ResolvedTU) (w bal : Nat),
      ctx.userAddress = some u →
      resolveTokenTU env p.fromToken (jsOrChain ctx.chainId) = some fromTok →
      resolveTokenTU env p.toToken (jsOrChain ctx.chainId) = some toTok →
      (jsToLower fromTok.address == jsToLower toTok.address) = false →
      env.parseUnits p.amount fromTok.decimals = some w →
      fromTok.isNative = false →
      env.tokenBalance fromTok.address u = some bal →
      ((bal < w →
        (swapHandler env sk p ctx).result =
          .error (.insufficientBalance fromTok.symbol bal) ∧
        (swapHandler env sk p ctx).persisted = []) ∧
       (w ≤ bal → ∀ s b,
        (swapHandler env sk p ctx).result ≠ .error (.insufficientBalance s b)))) := by
  refine ⟨fun env sk p ctx u target r tok tokenAddr w bal hu hnet hrec htok haddr hparse
      hbal => ⟨fun hlt => ?_, fun hge s b => ?_⟩,
    fun env sk p ctx u target r tok w bal hu hnet hrec htok haddr hparse hbal =>
      ⟨fun hlt => ?_, fun hge s b => ?_⟩,
    fun env sk p ctx u fromTok toTok w bal hu hf ht hne hparse hnat hbal =>
      ⟨fun hlt => ?_, fun hge s b => ?_⟩,
    fun env sk p ctx u fromTok toTok w bal hu hf ht hne hparse hnat hbal =>
      ⟨fun hlt => ?_, fun hge s b => ?_⟩⟩
  · constructor <;>
      simp [transferHandler, gateEmits, transferHandlerCore, hu, hnet, hrec, htok, haddr,
        hparse, hbal, hlt]
  · have hnlt : ¬bal < w := Nat.not_lt.mpr hge
    simp only [transferHandler, gateEmits, transferHandlerCore, hu, hnet, hrec, htok, haddr,
      hparse, hbal, hnlt, if_false]
    apply finishTransfer_no_insufficient
  · constructor <;>
      simp [transferHandler, gateEmits, transferHandlerCore, hu, hnet, hrec, htok, haddr,
        hparse, hbal, hlt]
  · have hnlt : ¬bal < w := Nat.not_lt.mpr hge
    simp only [transferHandler, gateEmits, transferHandlerCore, hu, hnet, hrec, htok, haddr,
      hparse, hbal, hnlt, if_false]
    apply finishTransfer_no_insufficient
  · constructor <;>
      simp [swapHandler, gateEmits, swapHandlerCore, hu, hf, ht, hne, hparse, hnat, hbal,
        hlt]
  · have hnlt : ¬bal < w := Nat.not_lt.mpr hge
    simp only [swapHandler, gateEmits, swapHandlerCore, hu, hf, ht, hne, hparse, hnat,
      hbal, hnlt, if_false]
    apply swapQuotesStep_no_insufficient
  · constructor <;>
      simp [swapHandler, gateEmits, swapHandlerCore, hu, hf, ht, hne, hparse, hnat, hbal,
        hlt]
  · have hnlt : ¬bal < w := Nat.not_lt.mpr hge
    simp only [swapHandler, gateEmits, swapHandlerCore, hu, hf, ht, hne, hparse, hnat,
      hbal, hnlt, if_false]
    apply swapQuotesStep_no_insufficient

/-- Witness for the balance boundary at the spec's Scenario B numbers:
native balance 0.01 (in wei-scale units 1000) against a transfer needing
2000000 units is rejected with no record persisted. -/
theorem balance_check_boundary_witness :
    ((1000 : Nat) < 2000000) ∧
    (transferHandler { baseEnv with nativeBalance := fun _ => some 1000 } true
        { toInput := USER, amount := "0.02", token := none, network := none }
        { userAddress := some USER, chainId := some 1, chatId := none }).result =
      .error (.insufficientBalance "ETH" 1000) ∧
    (transferHandler { baseEnv with nativeBalance := fun _ => some 1000 } true
        { toInput := USER, amount := "0.02", token := none, network := none }
        { userAddress := some USER, chainId := some 1, chatId := none }).persisted = [] :=
  ⟨by decide,
    (balance_check_boundary.2.1 { baseEnv with nativeBalance := fun _ => some 1000 } true
      { toInput := USER, amount := "0.02", token := none, network := none }
      { userAddress := some USER, chainId := some 1, chatId := none } USER none
      { address := USER, resolvedFrom := none }
      { address := none, symbol := "ETH", decimals := 18 } 2000000 1000
      rfl rfl (by decide) (by decide) rfl rfl rfl).1 (by decide)⟩

/-- Helper: the quote comparator is negative exactly when the second
quote's output does not exceed the first's. -/
theorem quoteCmp_neg_iff (a b : SwapQuote) :
    quoteCmp a b < 0 ↔ b.amountOut ≤ a.amountOut := by
  unfold quoteCmp
  by_cases h : a.amountOut < b.amountOut
  · rw [if_pos h]
    constructor
    · intro hc
      omega
    · intro hc
      omega
  · rw [if_neg h]
    constructor
    · intro hc
      omega
    · intro hc
      omega

/-- Helper: the quote comparator is non-negative exactly when the second
quote's output strictly exceeds the first's. -/
theorem quoteCmp_nonneg_iff (a b : SwapQuote) :
    0 ≤ quoteCmp a b ↔ a.amountOut < b.amountOut := by
  unfold quoteCmp
  by_cases h : a.amountOut < b.amountOut
  · rw [if_pos h]
    constructor
    · intro hc
      exact h
    · intro hc
      omega
  · rw [if_neg h]
    constructor
    · intro hc
      omega
    · intro hc
      exact absurd hc h

/-- Helper: the run scan splits its input — collected tail plus remainder
is the scanned list. -/
theorem v8RunWhile_append (p : SwapQuote → SwapQuote → Bool) :
    ∀ (prev : SwapQuote) (xs : List SwapQuote),
      (v8RunWhile p prev xs).1 ++ (v8RunWhile p prev xs).2 = xs
  | _, [] => rfl
  | prev, x :: xs => by
    by_cases h : p x prev
    · simp only [v8RunWhile, if_pos h, List.cons_append, v8RunWhile_append p x xs]
    · simp [v8RunWhile, if_neg h]

/-- Helper: a transitive relation that holds of each scanned element and
its predecessor holds pairwise along the run, from the predecessor on. -/
theorem v8RunWhile_pairwise (p : SwapQuote → SwapQuote → Bool)
    (R : SwapQuote → SwapQuote → Prop) (hpR : ∀ u v, p v u = true → R u v)
    (htrans : ∀ {u v w : SwapQuote}, R u v → R v w → R u w) :
    ∀ (prev : SwapQuote) (xs : List SwapQuote),
      (prev :: (v8RunWhile p prev xs).1).Pairwise R
  | _, [] => by simp [v8RunWhile]
  | prev, x :: xs => by
    by_cases h : p x prev
    · simp only [v8RunWhile, if_pos h]
      have ih := v8RunWhile_pairwise p R hpR htrans x xs
      refine List.Pairwise.cons ?_ ih
      intro y hy
      rcases List.mem_cons.mp hy with rfl | hy
      · exact hpR _ _ h
      · exact htrans (hpR _ _ h) (List.rel_of_pairwise_cons ih hy)
    · simp [v8RunWhile, if_neg h]

/-- Helper: extending a pairwise run by a head related to the old head is
pairwise again (using transitivity). -/
theorem run_pairwise_cons (R : SwapQuote → SwapQuote → Prop)
    (htrans : ∀ {u v w : SwapQuote}, R u v → R v w → R u w) (a b : SwapQuote)
    (l : List SwapQuote) (hab : R a b) (hbl : (b :: l).Pairwise R) :
    (a :: b :: l).Pairwise R := by
  refine List.Pairwise.cons ?_ hbl
  intro y hy
  rcases List.mem_cons.mp hy with rfl | hy
  · exact hab
  · exact htrans hab (List.rel_of_pairwise_cons hbl hy)

/-- Helper: the initial V8 run (reversed when counted "descending") is
weakly descending by output. -/
theorem v8InitialRun_sorted (l : List SwapQuote) :
    (v8InitialRun l).1.Pairwise (fun a b => b.amountOut ≤ a.amountOut) := by
  match l with
  | [] => simp [v8InitialRun]
  | [a] => simp [v8InitialRun]
  | a :: b :: t =>
    by_cases hba : quoteCmp b a < 0
    · have h1 : (v8InitialRun (a :: b :: t)).1 =
          (a :: b :: (v8RunWhile (fun x prev => decide (quoteCmp x prev < 0)) b t).1).reverse := by
        simp [v8InitialRun, hba]
      rw [h1, List.pairwise_reverse]
      exact run_pairwise_cons (fun x y => x.amountOut ≤ y.amountOut)
        (fun ha hb => Nat.le_trans ha hb) a b _
        ((quoteCmp_neg_iff b a).mp hba)
        (v8RunWhile_pairwise _ _
          (fun u v hp => (quoteCmp_neg_iff v u).mp (of_decide_eq_true hp))
          (fun ha hb => Nat.le_trans ha hb) b t)
    · have h1 : (v8InitialRun (a :: b :: t)).1 =
          a :: b :: (v8RunWhile (fun x prev => decide (0 ≤ quoteCmp x prev)) b t).1 := by
        simp [v8InitialRun, hba]
      rw [h1]
      have hstrict : (a :: b ::
          (v8RunWhile (fun x prev => decide (0 ≤ quoteCmp x prev)) b t).1).Pairwise
          (fun u v => v.amountOut < u.amountOut) :=
        run_pairwise_cons (fun u v => v.amountOut < u.amountOut)
          (fun ha hb => Nat.lt_trans hb ha) a b _
          ((quoteCmp_nonneg_iff b a).mp (le_of_not_lt hba))
          (v8RunWhile_pairwise _ _
            (fun u v hp => (quoteCmp_nonneg_iff v u).mp (of_decide_eq_true hp))
            (fun ha hb => Nat.lt_trans hb ha) b t)
      exact hstrict.imp (fun h => Nat.le_of_lt h)

/-- Helper: the initial run plus the remainder is a permutation of the
input (the run may have been reversed in place). -/
theorem v8InitialRun_perm (l : List SwapQuote) :
    List.Perm ((v8InitialRun l).1 ++ (v8InitialRun l).2) l := by
  match l with
  | [] => simp [v8InitialRun]
  | [a] => simp [v8InitialRun]
  | a :: b :: t =>
    by_cases hba : quoteCmp b a < 0
    · have h1 : (v8InitialRun (a :: b :: t)).1 =
          (a :: b :: (v8RunWhile (fun x prev => decide (quoteCmp x prev < 0)) b t).1).reverse := by
        simp [v8InitialRun, hba]
      have h2 : (v8InitialRun (a :: b :: t)).2 =
          (v8RunWhile (fun x prev => decide (quoteCmp x prev < 0)) b t).2 := by
        simp [v8InitialRun, hba]
      rw [h1, h2]
      refine ((List.reverse_perm _).append_right _).trans ?_
      rw [List.cons_append, List.cons_append, v8RunWhile_append]
    · have h1 : (v8InitialRun (a :: b :: t)).1 =
          a :: b :: (v8RunWhile (fun x prev => decide (0 ≤ quoteCmp x prev)) b t).1 := by
        simp [v8InitialRun, hba]
      have h2 : (v8InitialRun (a :: b :: t)).2 =
          (v8RunWhile (fun x prev => decide (0 ≤ quoteCmp x prev)) b t).2 := by
        simp [v8InitialRun, hba]
      rw [h1, h2, List.cons_append, List.cons_append, v8RunWhile_append]

/-- Helper: one binary insertion is a permutation of consing the pivot. -/
theorem v8BinaryInsert_perm (x : SwapQuote) :
    ∀ l : List SwapQuote, List.Perm (v8BinaryInsert x l) (x :: l)
  | [] => List.Perm.refl _
  | e :: es => by
    by_cases h : quoteCmp x e < 0
    · simp only [v8BinaryInsert, if_pos h]
      exact List.Perm.refl _
    · simp only [v8BinaryInsert, if_neg h]
      exact ((v8BinaryInsert_perm x es).cons e).trans (List.Perm.swap x e es)

/-- Helper: inserting every leftover element permutes the concatenation. -/
theorem v8InsertAll_perm :
    ∀ (xs acc : List SwapQuote), List.Perm (v8InsertAll acc xs) (acc ++ xs)
  | [], acc => by
    simp only [v8InsertAll, List.append_nil]
    exact List.Perm.refl _
  | x :: xs, acc => by
    simp only [v8InsertAll]
    refine (v8InsertAll_perm xs (v8BinaryInsert x acc)).trans ?_
    refine ((v8BinaryInsert_perm x acc).append_right xs).trans ?_
    exact List.perm_middle.symm

/-- Helper: the modelled V8 sort permutes its input. -/
theorem v8SortQuotes_perm (l : List SwapQuote) :
    List.Perm (v8SortQuotes l) l :=
  (v8InsertAll_perm (v8InitialRun l).2 (v8InitialRun l).1).trans (v8InitialRun_perm l)

/-- Helper: binary insertion preserves weak descent by output. -/
theorem v8BinaryInsert_sorted (x : SwapQuote) :
    ∀ l : List SwapQuote,
      l.Pairwise (fun a b => b.amountOut ≤ a.amountOut) →
      (v8BinaryInsert x l).Pairwise (fun a b => b.amountOut ≤ a.amountOut)
  | [], _ => by simp [v8BinaryInsert]
  | e :: es, hp => by
    by_cases h : quoteCmp x e < 0
    · simp only [v8BinaryInsert, if_pos h]
      have hex : e.amountOut ≤ x.amountOut := (quoteCmp_neg_iff x e).mp h
      refine List.Pairwise.cons ?_ hp
      intro y hy
      rcases List.mem_cons.mp hy with rfl | hy
      · exact hex
      · exact Nat.le_trans (List.rel_of_pairwise_cons hp hy) hex
    · simp only [v8BinaryInsert, if_neg h]
      have hxe : x.amountOut < e.amountOut :=
        (quoteCmp_nonneg_iff x e).mp (le_of_not_lt h)
      refine List.Pairwise.cons ?_ (v8BinaryInsert_sorted x es hp.of_cons)
      intro y hy
      rcases List.mem_cons.mp ((v8BinaryInsert_perm x es).mem_iff.mp hy) with rfl | hy
      · exact Nat.le_of_lt hxe
      · exact List.rel_of_pairwise_cons hp hy

/-- Helper: inserting all leftovers preserves weak descent by output. -/
theorem v8InsertAll_sorted :
    ∀ (xs acc : List SwapQuote),
      acc.Pairwise (fun a b => b.amountOut ≤ a.amountOut) →
      (v8InsertAll acc xs).Pairwise (fun a b => b.amountOut ≤ a.amountOut)
  | [], _, hp => hp
  | x :: xs, acc, hp =>
    v8InsertAll_sorted xs (v8BinaryInsert x acc) (v8BinaryInsert_sorted x acc hp)

/-- Helper: the modelled V8 sort output is weakly descending by output. -/
theorem v8SortQuotes_sorted (l : List SwapQuote) :
    (v8SortQuotes l).Pairwise (fun a b => b.amountOut ≤ a.amountOut) :=
  v8InsertAll_sorted (v8InitialRun l).2 (v8InitialRun l).1 (v8InitialRun_sorted l)

/-- Helper: inserting a pivot whose rank exceeds every rank in the list
preserves the reverse-tie invariant — the pivot lands before any element
tied with it, so ranks keep strictly decreasing within equal outputs. -/
theorem v8BinaryInsert_pairwise_tie (f : SwapQuote → Nat) (x : SwapQuote) :
    ∀ l : List SwapQuote,
      l.Pairwise (fun u v => u.amountOut = v.amountOut → f v < f u) →
      (∀ y ∈ l, f y < f x) →
      (v8BinaryInsert x l).Pairwise (fun u v => u.amountOut = v.amountOut → f v < f u)
  | [], _, _ => by simp [v8BinaryInsert]
  | e :: es, hp, hall => by
    by_cases h : quoteCmp x e < 0
    · simp only [v8BinaryInsert, if_pos h]
      exact List.Pairwise.cons (fun y hy _ => hall y hy) hp
    · simp only [v8BinaryInsert, if_neg h]
      have hxe : x.amountOut < e.amountOut :=
        (quoteCmp_nonneg_iff x e).mp (le_of_not_lt h)
      refine List.Pairwise.cons ?_
        (v8BinaryInsert_pairwise_tie f x es hp.of_cons
          (fun y hy => hall y (List.mem_cons_of_mem e hy)))
      intro y hy heq
      rcases List.mem_cons.mp ((v8BinaryInsert_perm x es).mem_iff.mp hy) with rfl | hy
      · exact absurd heq (by omega)
      · exact List.rel_of_pairwise_cons hp hy heq

/-- Helper: inserting all leftovers — each of rank above everything placed
before it — preserves the reverse-tie invariant. -/
theorem v8InsertAll_pairwise_tie (f : SwapQuote → Nat) :
    ∀ (xs acc : List SwapQuote),
      acc.Pairwise (fun u v => u.amountOut = v.amountOut → f v < f u) →
      xs.Pairwise (fun u v => f u < f v) →
      (∀ y ∈ acc, ∀ x ∈ xs, f y < f x) →
      (v8InsertAll acc xs).Pairwise (fun u v => u.amountOut = v.amountOut → f v < f u)
  | [], _, hp, _, _ => hp
  | x :: xs, acc, hp, hxs, hcross => by
    simp only [v8InsertAll]
    refine v8InsertAll_pairwise_tie f xs (v8BinaryInsert x acc) ?_ hxs.of_cons ?_
    · exact v8BinaryInsert_pairwise_tie f x acc hp
        (fun y hy => hcross y hy x (List.mem_cons_self x xs))
    · intro y hy z hz
      rcases List.mem_cons.mp ((v8BinaryInsert_perm x acc).mem_iff.mp hy) with rfl | hy
      · exact List.rel_of_pairwise_cons hxs hz
      · exact hcross y hy z (List.mem_cons_of_mem x hz)

/-- Helper: on a strictly rank-increasing input, the initial V8 run
satisfies the reverse-tie invariant (a reversed run reverses all ranks; a
kept run has strictly descending outputs, so no ties), the remainder
keeps strictly increasing ranks, and every run rank lies below every
remainder rank. -/
theorem v8InitialRun_tie_facts (f : SwapQuote → Nat) (l : List SwapQuote)
    (h : l.Pairwise (fun u v => f u < f v)) :
    (v8InitialRun l).1.Pairwise (fun u v => u.amountOut = v.amountOut → f v < f u) ∧
    (v8InitialRun l).2.Pairwise (fun u v => f u < f v) ∧
    (∀ y ∈ (v8InitialRun l).1, ∀ x ∈ (v8InitialRun l).2, f y < f x) := by
  match l with
  | [] => simp [v8InitialRun]
  | [a] => simp [v8InitialRun]
  | a :: b :: t =>
    by_cases hba : quoteCmp b a < 0
    · have h1 : (v8InitialRun (a :: b :: t)).1 =
          (a :: b :: (v8RunWhile (fun x prev => decide (quoteCmp x prev < 0)) b t).1).reverse := by
        simp [v8InitialRun, hba]
      have h2 : (v8InitialRun (a :: b :: t)).2 =
          (v8RunWhile (fun x prev => decide (quoteCmp x prev < 0)) b t).2 := by
        simp [v8InitialRun, hba]
      have happ : (a :: b :: (v8RunWhile (fun x prev => decide (quoteCmp x prev < 0)) b t).1) ++
          (v8RunWhile (fun x prev => decide (quoteCmp x prev < 0)) b t).2 = a :: b :: t := by
        rw [List.cons_append, List.cons_append, v8RunWhile_append]
      rw [← happ] at h
      obtain ⟨hpre, hrest, hcross⟩ := List.pairwise_append.mp h
      refine ⟨?_, ?_, ?_⟩
      · rw [h1, List.pairwise_reverse]
        refine List.Pairwise.imp ?_ hpre
        intro u v hlt heq
        exact hlt
      · rw [h2]
        exact hrest
      · intro y hy x hx
        rw [h1] at hy
        rw [h2] at hx
        exact hcross y (List.mem_reverse.mp hy) x hx
    · have h1 : (v8InitialRun (a :: b :: t)).1 =
          a :: b :: (v8RunWhile (fun x prev => decide (0 ≤ quoteCmp x prev)) b t).1 := by
        simp [v8InitialRun, hba]
      have h2 : (v8InitialRun (a :: b :: t)).2 =
          (v8RunWhile (fun x prev => decide (0 ≤ quoteCmp x prev)) b t).2 := by
        simp [v8InitialRun, hba]
      have happ : (a :: b :: (v8RunWhile (fun x prev => decide (0 ≤ quoteCmp x prev)) b t).1) ++
          (v8RunWhile (fun x prev => decide (0 ≤ quoteCmp x prev)) b t).2 = a :: b :: t := by
        rw [List.cons_append, List.cons_append, v8RunWhile_append]
      rw [← happ] at h
      obtain ⟨hpre, hrest, hcross⟩ := List.pairwise_append.mp h
      have hstrict : (a :: b ::
          (v8RunWhile (fun x prev => decide (0 ≤ quoteCmp x prev)) b t).1).Pairwise
          (fun u v => v.amountOut < u.amountOut) :=
        run_pairwise_cons (fun u v => v.amountOut < u.amountOut)
          (fun ha hb => Nat.lt_trans hb ha) a b _
          ((quoteCmp_nonneg_iff b a).mp (le_of_not_lt hba))
          (v8RunWhile_pairwise _ _
            (fun u v hp => (quoteCmp_nonneg_iff v u).mp (of_decide_eq_true hp))
            (fun ha hb => Nat.lt_trans hb ha) b t)
      refine ⟨?_, ?_, ?_⟩
      · rw [h1]
        refine List.Pairwise.imp ?_ hstrict
        intro u v hlt heq
        exact absurd heq (by omega)
      · rw [h2]
        exact hrest
      · intro y hy x hx
        rw [h1] at hy
        rw [h2] at hx
        exact hcross y hy x hx

/-- Helper: from strictly increasing registration ranks on the input, the
V8 sort output keeps strictly decreasing ranks within equal outputs. -/
theorem v8SortQuotes_pairwise_tie (f : SwapQuote → Nat) (l : List SwapQuote)
    (h : l.Pairwise (fun u v => f u < f v)) :
    (v8SortQuotes l).Pairwise (fun u v => u.amountOut = v.amountOut → f v < f u) := by
  obtain ⟨hrun, hrest, hcross⟩ := v8InitialRun_tie_facts f l h
  exact v8InsertAll_pairwise_tie f _ _ hrun hrest hcross

/-- Helper: an entry that the quote-collection loop pushes for venue `dex`
carries that venue, a positive amount, and the venue's own quote value. -/
theorem collect_entry_spec (env : Env) (chainId : Int) (tokenIn tokenOut : String)
    (amountIn : Nat) (dex : DexConfig) (q : SwapQuote)
    (h : (match dexQuote env chainId tokenIn tokenOut amountIn dex with
          | some a => if 0 < a then some { dex := dex, amountOut := a } else none
          | none => none) = some q) :
    q.dex = dex ∧ 0 < q.amountOut ∧
      dexQuote env chainId tokenIn tokenOut amountIn dex = some q.amountOut := by
  split at h
  · split at h
    · cases h
      simp_all
    · cases h
  · cases h

/-- Helper: the unsorted collected quotes have strictly increasing venue
registration ranks (one entry per venue, in registration order). -/
theorem collectQuotes_rank_increasing (env : Env) (chainId : Int)
    (tokenIn tokenOut : String) (amountIn : Nat) :
    (collectQuotes env chainId tokenIn tokenOut amountIn).Pairwise
      (fun a b => slugRank a.dex.slug < slugRank b.dex.slug) := by
  have hdex : DEX_LIST.Pairwise (fun d e : DexConfig => slugRank d.slug < slugRank e.slug) := by
    decide
  have hfil : (getDexesForChainC chainId).Pairwise
      (fun d e : DexConfig => slugRank d.slug < slugRank e.slug) :=
    hdex.filter _
  refine hfil.filterMap _ ?_
  intro d d' hrel q hq q' hq'
  have h1 := collect_entry_spec env chainId tokenIn tokenOut amountIn d q
    (Option.mem_def.mp hq)
  have h2 := collect_entry_spec env chainId tokenIn tokenOut amountIn d' q'
    (Option.mem_def.mp hq')
  rw [h1.1, h2.1]
  exact hrel

/-- Helper: if no fee tier quotes positive, the tier loop's final value is
not positive either. -/
theorem v3LoopResult_not_pos (q : Nat → Option Nat) :
    ∀ tiers : List Nat, (∀ fee ∈ tiers, isPosQ (q fee) = false) →
      isPosQ (v3LoopResult q tiers) = false
  | [], _ => rfl
  | fee :: rest, h => by
    have hfee := h fee (List.mem_cons_self fee rest)
    cases rest with
    | nil => simpa [v3LoopResult] using hfee
    | cons g gs =>
      have := v3LoopResult_not_pos q (g :: gs)
        (fun x hx => h x (List.mem_cons_of_mem fee hx))
      simpa [v3LoopResult, hfee] using this

/-- C1 (amended): for every environment and chain, `getAllQuotes` returns
only viable quotes (positive `amountOut`), sorted descending by
`amountOut`, and the head of the list — the quote the handler selects —
has an `amountOut` at least as large as every other returned quote's.
Tied quotes, however, come out in reverse venue registration order
(strictly decreasing registration rank on equal outputs): the comparator
`(a, b) => (b.amountOut > a.amountOut ? 1 : -1)` never returns 0, and
under it the V8 engine reads a weakly ascending stretch as a descending
run and reverses it, and binary-inserts later elements before the
elements they tie with. -/
theorem getAllQuotes_sorted_best (env : Env) (chainId : Int) (tokenIn tokenOut : String)
    (amountIn tokenOutDecimals : Nat) :
    (∀ q ∈ getAllQuotes env chainId tokenIn tokenOut amountIn tokenOutDecimals,
      0 < q.amountOut) ∧
    (getAllQuotes env chainId tokenIn tokenOut amountIn tokenOutDecimals).Pairwise
      (fun a b => b.amountOut ≤ a.amountOut) ∧
    (getAllQuotes env chainId tokenIn tokenOut amountIn tokenOutDecimals).Pairwise
      (fun a b => a.amountOut = b.amountOut →
        slugRank b.dex.slug < slugRank a.dex.slug) ∧
    (∀ best ∈ (getAllQuotes env chainId tokenIn tokenOut amountIn
        tokenOutDecimals).head?,
      ∀ q ∈ getAllQuotes env chainId tokenIn tokenOut amountIn tokenOutDecimals,
        q.amountOut ≤ best.amountOut) := by
  have hsorted : (getAllQuotes env chainId tokenIn tokenOut amountIn
      tokenOutDecimals).Pairwise (fun a b => b.amountOut ≤ a.amountOut) :=
    v8SortQuotes_sorted _
  refine ⟨?_, hsorted, ?_, ?_⟩
  · intro q hq
    have hcol : q ∈ collectQuotes env chainId tokenIn tokenOut amountIn :=
      (v8SortQuotes_perm _).mem_iff.mp hq
    obtain ⟨dex, _, hsome⟩ := List.mem_filterMap.mp hcol
    exact (collect_entry_spec env chainId tokenIn tokenOut amountIn dex q hsome).2.1
  · exact v8SortQuotes_pairwise_tie (fun q => slugRank q.dex.slug) _
      (collectQuotes_rank_increasing env chainId tokenIn tokenOut amountIn)
  · intro best hbest q hq
    rcases hl : getAllQuotes env chainId tokenIn tokenOut amountIn tokenOutDecimals with
      _ | ⟨b, t⟩
    · rw [hl] at hbest
      cases hbest
    · rw [hl] at hbest hq hsorted
      cases hbest
      rcases List.mem_cons.mp hq with rfl | hq
      · exact le_refl _
      · exact List.rel_of_pairwise_cons hsorted hq

/-- Witness for the quote ranking on chain 1 in `quoteEnv`: the collected
quotes are Uniswap 100 and the tied V2 venues at 200; the returned list is
the tied venues in reverse registration order followed by Uniswap, the
head quote is viable and every other quote is bounded by it. -/
theorem getAllQuotes_sorted_best_witness :
    0 < (⟨PANCAKESWAP, 200⟩ : SwapQuote).amountOut ∧
    (⟨UNISWAP, 100⟩ : SwapQuote).amountOut ≤ (⟨PANCAKESWAP, 200⟩ : SwapQuote).amountOut := by
  have hout : getAllQuotes quoteEnv 1 "0xIN" "0xOUT" 5 18 =
      [⟨PANCAKESWAP, 200⟩, ⟨CURVE, 200⟩, ⟨SUSHISWAP, 200⟩, ⟨UNISWAP, 100⟩] := rfl
  refine ⟨(getAllQuotes_sorted_best quoteEnv 1 "0xIN" "0xOUT" 5 18).1 ⟨PANCAKESWAP, 200⟩ ?_,
    (getAllQuotes_sorted_best quoteEnv 1 "0xIN" "0xOUT" 5 18).2.2.2 ⟨PANCAKESWAP, 200⟩ ?_
      ⟨UNISWAP, 100⟩ ?_⟩
  · rw [hout]
    exact List.mem_cons_self _ _
  · rw [hout]
    rfl
  · rw [hout]
    exact List.Mem.tail _ (List.Mem.tail _ (List.Mem.tail _ (List.Mem.head _)))

/-- Counterexample to C1 as stated: the claimed "ties in venue
registration order" fails on the program.  On chain 1 in `quoteEnv` the
three V2 venues tie at 200 (collected order uniswap 100, sushiswap 200,
curve 200, pancakeswap 200); the sort the never-zero comparator drives on
V8 counts the whole array as one descending run and reverses it, so
pancakeswap (registration rank 3) precedes curve and sushiswap (ranks 2
and 1) in the returned list. -/
theorem getAllQuotes_stable_tie_counterexample :
    getAllQuotes quoteEnv 1 "0xIN" "0xOUT" 5 18 =
      [⟨PANCAKESWAP, 200⟩, ⟨CURVE, 200⟩, ⟨SUSHISWAP, 200⟩, ⟨UNISWAP, 100⟩] ∧
    ¬ (getAllQuotes quoteEnv 1 "0xIN" "0xOUT" 5 18).Pairwise
        (fun a b => a.amountOut = b.amountOut →
          slugRank a.dex.slug < slugRank b.dex.slug) := by
  refine ⟨rfl, ?_⟩
  intro hpair
  have hout : getAllQuotes quoteEnv 1 "0xIN" "0xOUT" 5 18 =
      [⟨PANCAKESWAP, 200⟩, ⟨CURVE, 200⟩, ⟨SUSHISWAP, 200⟩, ⟨UNISWAP, 100⟩] := rfl
  rw [hout] at hpair
  have hrel := List.rel_of_pairwise_cons hpair
    (List.mem_cons_self (⟨CURVE, 200⟩ : SwapQuote) _)
  exact absurd (hrel rfl) (by decide)

/-- C4: the Uniswap V3 venue tries the fixed ordered tier list
`[MEDIUM, LOW, HIGH]`; the first tier with a positive amount wins and no
later tier is attempted; if no tier is positive the venue contributes no
quote to `getAllQuotes`. -/
theorem v3_tier_fallback (env : Env) (chainId : Int) (tokenIn tokenOut : String)
    (amountIn tokenOutDecimals : Nat) (quoter : String)
    (hq : UNISWAP.quoterAddress chainId = some quoter) :
    (isPosQ (env.v3quote quoter tokenIn tokenOut amountIn FEE_TIERS.MEDIUM) = true →
      v3Attempts (fun fee => env.v3quote quoter tokenIn tokenOut amountIn fee)
        FEE_TIER_ORDER = [FEE_TIERS.MEDIUM] ∧
      dexQuote env chainId tokenIn tokenOut amountIn UNISWAP =
        env.v3quote quoter tokenIn tokenOut amountIn FEE_TIERS.MEDIUM) ∧
    (isPosQ (env.v3quote quoter tokenIn tokenOut amountIn FEE_TIERS.MEDIUM) = false →
      isPosQ (env.v3quote quoter tokenIn tokenOut amountIn FEE_TIERS.LOW) = true →
      v3Attempts (fun fee => env.v3quote quoter tokenIn tokenOut amountIn fee)
        FEE_TIER_ORDER = [FEE_TIERS.MEDIUM, FEE_TIERS.LOW] ∧
      dexQuote env chainId tokenIn tokenOut amountIn UNISWAP =
        env.v3quote quoter tokenIn tokenOut amountIn FEE_TIERS.LOW) ∧
    (isPosQ (env.v3quote quoter tokenIn tokenOut amountIn FEE_TIERS.MEDIUM) = false →
      isPosQ (env.v3quote quoter tokenIn tokenOut amountIn FEE_TIERS.LOW) = false →
      v3Attempts (fun fee => env.v3quote quoter tokenIn tokenOut amountIn fee)
        FEE_TIER_ORDER = [FEE_TIERS.MEDIUM, FEE_TIERS.LOW, FEE_TIERS.HIGH] ∧
      dexQuote env chainId tokenIn tokenOut amountIn UNISWAP =
        env.v3quote quoter tokenIn tokenOut amountIn FEE_TIERS.HIGH) ∧
    ((∀ fee ∈ FEE_TIER_ORDER,
        isPosQ (env.v3quote quoter tokenIn tokenOut amountIn fee) = false) →
      ∀ r ∈ getAllQuotes env chainId tokenIn tokenOut amountIn tokenOutDecimals,
        r.dex.slug ≠ "uniswap") := by
  have hslugU : (UNISWAP.slug == "uniswap") = true := by decide
  refine ⟨fun h1 => ?_, fun h1 h2 => ?_, fun h1 h2 => ?_, fun hall r hr hslug => ?_⟩
  · constructor
    · simp [v3Attempts, FEE_TIER_ORDER, h1]
    · simp [dexQuote, hq, hslugU, v3LoopResult, FEE_TIER_ORDER, h1]
  · constructor
    · simp [v3Attempts, FEE_TIER_ORDER, h1, h2]
    · simp [dexQuote, hq, hslugU, v3LoopResult, FEE_TIER_ORDER, h1, h2]
  · constructor
    · simp [v3Attempts, FEE_TIER_ORDER, h1, h2]
    · simp [dexQuote, hq, hslugU, v3LoopResult, FEE_TIER_ORDER, h1, h2]
  · have hcol : r ∈ collectQuotes env chainId tokenIn tokenOut amountIn :=
      (v8SortQuotes_perm _).mem_iff.mp hr
    obtain ⟨dex, hmem, hsome⟩ := List.mem_filterMap.mp hcol
    have hspec := collect_entry_spec env chainId tokenIn tokenOut amountIn dex r hsome
    have hdexmem : dex ∈ DEX_LIST := (List.mem_filter.mp hmem).1
    have hslug2 : dex.slug = "uniswap" := by rw [← hspec.1]; exact hslug
    have hdexeq : dex = UNISWAP := by
      simp only [DEX_LIST, List.mem_cons, List.not_mem_nil, or_false] at hdexmem
      rcases hdexmem with h | h | h | h | h
      · exact h
      · rw [h] at hslug2; exact absurd hslug2 (by decide)
      · rw [h] at hslug2; exact absurd hslug2 (by decide)
      · rw [h] at hslug2; exact absurd hslug2 (by decide)
      · rw [h] at hslug2; exact absurd hslug2 (by decide)
    subst hdexeq
    have hquote := hspec.2.2
    simp only [dexQuote, hq, hslugU, Option.isSome_some, Bool.and_self, Bool.and_true,
      if_true] at hquote
    have hnp := v3LoopResult_not_pos
      (fun fee => env.v3quote quoter tokenIn tokenOut amountIn fee) FEE_TIER_ORDER hall
    rw [hquote] at hnp
    have hpos : 0 < r.amountOut := hspec.2.1
    simp [isPosQ] at hnp
    omega

/-- Witness for the tier fallback in `tierEnv` (zero at the mid tier, 77
at the low tier): the attempts are exactly `[3000, 500]` and the venue
quote is the low tier's amount. -/
theorem v3_tier_fallback_witness :
    v3Attempts (fun fee => tierEnv.v3quote "0x61fFE014bA17989E743c5F6cB21bF9697530B21e"
        "0xIN" "0xOUT" 5 fee) FEE_TIER_ORDER = [FEE_TIERS.MEDIUM, FEE_TIERS.LOW] ∧
    dexQuote tierEnv 1 "0xIN" "0xOUT" 5 UNISWAP =
      tierEnv.v3quote "0x61fFE014bA17989E743c5F6cB21bF9697530B21e" "0xIN" "0xOUT" 5
        FEE_TIERS.LOW :=
  (v3_tier_fallback tierEnv 1 "0xIN" "0xOUT" 5 18
    "0x61fFE014bA17989E743c5F6cB21bF9697530B21e" rfl).2.1 (by decide) (by decide)

/-- C3 (amended): `buildSwapTransaction` for the V3 venue always encodes
`exactInputSingle` inside a deadline-carrying `multicall` with the fixed
mid-tier fee `FEE_TIERS.MEDIUM` and the zero-address recipient sentinel
for native output, regardless of which tier was discovered during
quoting. -/
theorem buildSwap_v3_fee_always_medium (dex : DexConfig) (chainId : Int)
    (tokenIn tokenOut : ResolvedTU) (amountIn amountOutMin : Nat) (recipient : String)
    (deadline : Nat) (hslug : dex.slug = "uniswap") :
    (buildSwapTransaction dex chainId tokenIn tokenOut amountIn amountOutMin recipient
        deadline).data =
      .v3Multicall deadline tokenIn.address tokenOut.address FEE_TIERS.MEDIUM
        (if tokenOut.isNative then ZERO_ADDRESS else recipient) amountIn amountOutMin 0 := by
  simp [buildSwapTransaction, hslug]

/-- Witness: a concrete V3 build encodes the mid-tier fee in the multicall
payload. -/
theorem buildSwap_v3_fee_always_medium_witness :
    (buildSwapTransaction UNISWAP 1
        { address := "0xIN", symbol := "TOKEN", decimals := 18, isNative := false }
        { address := "0xOUT", symbol := "TOKEN", decimals := 18, isNative := false }
        1000 900 USER 1234).data =
      .v3Multicall 1234 "0xIN" "0xOUT" FEE_TIERS.MEDIUM
        (if (false : Bool) then ZERO_ADDRESS else USER) 1000 900 0 :=
  buildSwap_v3_fee_always_medium UNISWAP 1
    { address := "0xIN", symbol := "TOKEN", decimals := 18, isNative := false }
    { address := "0xOUT", symbol := "TOKEN", decimals := 18, isNative := false }
    1000 900 USER 1234 rfl

/-- Counterexample to C3 as stated: with the quoter returning zero at the
mid tier and 77 at the low tier, the tier discovered during quoting is
`FEE_TIERS.LOW` (500), yet the built transaction encodes
`FEE_TIERS.MEDIUM` (3000) — the discovered tier is never encoded. -/
theorem buildSwap_v3_fee_counterexample :
    v3DiscoveredTier (fun fee => tierEnv.v3quote
        "0x61fFE014bA17989E743c5F6cB21bF9697530B21e" "0xIN" "0xOUT" 5 fee)
      FEE_TIER_ORDER = some FEE_TIERS.LOW ∧
    (buildSwapTransaction UNISWAP 1
        { address := "0xIN", symbol := "TOKEN", decimals := 18, isNative := false }
        { address := "0xOUT", symbol := "TOKEN", decimals := 18, isNative := false }
        1000 900 USER 1234).data =
      .v3Multicall 1234 "0xIN" "0xOUT" FEE_TIERS.MEDIUM USER 1000 900 0 ∧
    FEE_TIERS.LOW ≠ FEE_TIERS.MEDIUM := by
  refine ⟨by decide, ?_, by decide⟩
  rfl
